import Mathlib

/-!
# gitdash: verification of the navigation and rendering substrate

Shallow embedding, in Lean 4, of the parts of the gitdash TUI that the
specification's claims are about: the dashboard panel's flat-list builder
and viewport cursor (`tui/dashboard/model.go`), the conductor panel's list
(`tui/conductorpane/model.go`), the graph pane's commit list and file-expand
state (`tui/graphpane/model.go`), and the top-level app's focus routing and
message handling (`tui/app.go`).

Conventions of the embedding:
* Go `int` is `Int`; Go slices are `List`; Go strings are `String`.
* Go maps are association lists (`List (κ × ν)`), read through `mapGet?`
  with the Go zero-value default; `mapSet` replaces in place or appends.
  Go map reads inside the list builders go through derived total lookup
  functions, exactly as the Go code reads them (index with default).
* Fallible Go index expressions are `listIdx?` (an `Option`); total
  variants use `itemAt` with the `Inhabited` default, only where the Go
  code indexes unconditionally.
* Display-only state (lipgloss rendering, bubbles viewports, spinners) is
  not modelled; the omissions are noted at each structure.
-/

namespace Gitdash

/-- Indexing a list with a Go `int`: `none` when out of range (Go would
panic; the modelled code always checks bounds first). -/
def listIdx? (l : List α) (i : Int) : Option α :=
  if i < 0 then none else l.get? i.toNat

/-- Total variant of `listIdx?` for the places where the Go code indexes
unconditionally (the index is known in range there). -/
def itemAt [Inhabited α] (l : List α) (i : Int) : α :=
  (listIdx? l i).getD default

/-- Association-list read, modelling a Go map read `m[k]` together with its
presence bit. -/
def mapGet? [DecidableEq κ] : List (κ × ν) → κ → Option ν
  | [], _ => none
  | p :: rest, k => if p.1 = k then some p.2 else mapGet? rest k

/-- Go map read with the zero-value (or documented) default. -/
def mapGetD [DecidableEq κ] (l : List (κ × ν)) (k : κ) (d : ν) : ν :=
  (mapGet? l k).getD d

/-- Association-list write, modelling a Go map assignment `m[k] = v`. -/
def mapSet [DecidableEq κ] : List (κ × ν) → κ → ν → List (κ × ν)
  | [], k, v => [(k, v)]
  | p :: rest, k, v => if p.1 = k then (k, v) :: rest else p :: mapSet rest k v

/-! ## Go standard-library fragments

`goDir`, `goExt` and `goSplitSlash` model `path/filepath.Dir`,
`filepath.Ext` and `strings.Split` (on `string(filepath.Separator)`, which
is `/`) for the slash-separated, already-clean relative paths that
`git status --porcelain` produces (no `..`/`.` segments, no trailing or
doubled separators); the repository only feeds such paths to them. They
are written by structural recursion over character lists so that concrete
evaluations reduce in the kernel. -/

/-- Split a character list at every occurrence of `c`; splitting the empty
list yields one empty group, as `strings.Split("", sep)` yields one empty
string. -/
def splitOnChar (c : Char) (cs : List Char) : List (List Char) :=
  cs.foldr (fun ch acc =>
    if ch = c then [] :: acc
    else match acc with
      | [] => [[ch]]
      | g :: gs => (ch :: g) :: gs) [[]]

/-- Model of `strings.Split(s, string(filepath.Separator))`. -/
def goSplitSlash (s : String) : List String :=
  (splitOnChar '/' s.toList).map (fun g => String.mk g)

/-- Join path components back with slashes (the inverse used by the
`filepath.Dir` model). -/
def joinSlash : List String → String
  | [] => ""
  | [s] => s
  | s :: rest => s ++ "/" ++ joinSlash rest

/-- Model of `filepath.Dir` on clean relative slash paths: everything
before the final separator, `"."` when there is none. -/
def goDir (p : String) : String :=
  let parts := goSplitSlash p
  if parts.length ≤ 1 then "." else joinSlash parts.dropLast

/-- Model of `filepath.Ext`: the suffix beginning at the final dot of the
final path element, empty when the final element has no dot. -/
def goExt (p : String) : String :=
  let base := (goSplitSlash p).getLastD ""
  let cs := base.toList
  if cs.contains '.' then
    String.mk ('.' :: (cs.reverse.takeWhile (fun c => c ≠ '.')).reverse)
  else ""

/-- Go's byte-wise `<` on strings, as rune-wise lexicographic comparison
(UTF-8 byte order and codepoint order agree). -/
def charListLt : List Char → List Char → Bool
  | [], [] => false
  | [], _ :: _ => true
  | _ :: _, [] => false
  | a :: as, b :: bs =>
    if a.toNat < b.toNat then true
    else if b.toNat < a.toNat then false
    else charListLt as bs

/-- Model of the Go string comparison `a < b`. -/
def goStrLt (a b : String) : Bool := charListLt a.toList b.toList

/-- Model of `sort.SliceStable` with a strict `less`: insert each element,
in source order, behind every already-placed element it is not strictly
smaller than. Elements the comparator ties keep their source order, as
`SliceStable` guarantees. -/
def insertStable (less : α → α → Bool) (x : α) : List α → List α
  | [] => [x]
  | y :: ys => if less x y then x :: y :: ys else y :: insertStable less x ys

/-- Stable sort by a strict `less` (the model of `sort.SliceStable`). -/
def stableSort (less : α → α → Bool) (l : List α) : List α :=
  l.foldl (fun acc x => insertStable less x acc) []

/-! ## Data snapshots consumed from the external collaborators
(`config/config.go`, `git/status.go`, `git/log.go`, `git/show.go`,
`conductor/types.go`). Fields the navigation core never reads (timestamps,
TOML metadata) keep their Go zero values as defaults. -/

/-- config.PriorityRule. -/
structure PriorityRule where
  Tier : Int := 0
  Extensions : List String := []
  Directories : List String := []
deriving DecidableEq

/-- config.DisplayConfig (the fields the dashboard reads). -/
structure DisplayConfig where
  Icons : Bool := false
  NerdFonts : Bool := false
  GroupFolders : Bool := false
  GroupDocs : Bool := false
deriving DecidableEq

/-- config.RepoConfig. -/
structure RepoConfig where
  Path : String := ""
  IgnorePatterns : List String := []
deriving DecidableEq

/-- config.ProjectConfig. -/
structure ProjectConfig where
  Name : String := ""
  Path : String := ""
  Repos : List RepoConfig := []
deriving DecidableEq

instance : Inhabited ProjectConfig := ⟨{}⟩

/-- git.StagingState. -/
inductive StagingState where
  | Staged
  | Unstaged
deriving DecidableEq

/-- git.FileEntry; `Status` (git.FileStatus, an int enum) is display-only
and carried opaquely. -/
structure FileEntry where
  Path : String := ""
  Status : Int := 0
  StagingState : StagingState := .Staged
  OrigPath : String := ""
deriving DecidableEq

/-- git.RepoStatus; Go's `Error error` field is modelled as an optional
message, read only for nil-ness. -/
structure RepoStatus where
  Path : String := ""
  Name : String := ""
  Branch : String := ""
  Files : List FileEntry := []
  Ahead : Int := 0
  Behind : Int := 0
  Error : Option String := none
deriving DecidableEq

/-- git.GraphLine. -/
structure GraphLine where
  GraphChars : String := ""
  Hash : String := ""
  Refs : String := ""
  Message : String := ""
  IsCommit : Bool := false
deriving DecidableEq

instance : Inhabited GraphLine := ⟨{}⟩

/-- git.CommitFileStat. -/
structure CommitFileStat where
  Path : String := ""
  Added : Int := 0
  Deleted : Int := 0
deriving DecidableEq

instance : Inhabited CommitFileStat := ⟨{}⟩

/-- git.CommitDetail. -/
structure CommitDetail where
  Hash : String := ""
  Author : String := ""
  Date : String := ""
  Message : String := ""
  Files : List CommitFileStat := []
  TotalAdd : Int := 0
  TotalDel : Int := 0
deriving DecidableEq

/-- conductor.Feature. -/
structure Feature where
  ID : String := ""
  Category : String := ""
  Description : String := ""
  Status : String := ""
  Phase : Int := 0
  AttemptCount : Int := 0
  CommitHash : String := ""
  LastError : String := ""
deriving DecidableEq

/-- conductor.Session. -/
structure Session where
  ID : String := ""
  Number : Int := 0
  Status : String := ""
  ProgressNotes : String := ""
  StartedAt : Int := 0
  CompletedAt : Int := 0
deriving DecidableEq

/-- conductor.Handoff. -/
structure Handoff where
  ID : String := ""
  CurrentTask : String := ""
  NextSteps : List String := []
  Blockers : List String := []
  FilesModified : List String := []
deriving DecidableEq

/-- conductor.QualityReflection. -/
structure QualityReflection where
  ID : String := ""
  ReflectionType : String := ""
  ShortcutsTaken : List String := []
  TestsSkipped : List String := []
  KnownLimitations : List String := []
  DeferredWork : List String := []
  TechnicalDebt : List String := []
  Resolved : Bool := false
deriving DecidableEq

/-- conductor.Memory. -/
structure Memory where
  ID : String := ""
  Name : String := ""
  Content : String := ""
  Tags : List String := []
deriving DecidableEq

/-- conductor.ConductorData. -/
structure ConductorData where
  Features : List Feature := []
  Session : Option Session := none
  Handoff : Option Handoff := none
  Quality : List QualityReflection := []
  Memories : List Memory := []
  Passed : Int := 0
  Total : Int := 0
deriving DecidableEq

/-! ## Dashboard panel (`tui/dashboard/model.go`) -/

namespace Dashboard

/-- dashboard.ItemKind. -/
inductive ItemKind where
  | ProjectHeader
  | RepoHeader
  | SectionHeader
  | DocHeader
  | FolderHeader
  | File
deriving DecidableEq

/-- dashboard.FlatItem. Go's `*git.FileEntry` and `*git.RepoStatus`
back-references are carried as optional values; unset fields default to
the Go zero values. -/
structure FlatItem where
  Kind : ItemKind := .File
  RepoIndex : Int := 0
  FileIndex : Int := 0
  ProjectIndex : Int := 0
  File : Option Gitdash.FileEntry := none
  Repo : Option Gitdash.RepoStatus := none
  Section : String := ""
  Tier : Int := 0
  Dir : String := ""
deriving DecidableEq

instance : Inhabited FlatItem := ⟨{}⟩

/-- dashboard.Model. Display-only fields (`pushingRepos`,
`projectConductor`) are not modelled: the list builder never reads them. -/
structure Model where
  repos : List Gitdash.RepoStatus := []
  flatItems : List FlatItem := []
  repoHeaders : List Int := []
  collapsed : List (Int × Bool) := []
  docsCollapsed : List (Int × Bool) := []
  foldersCollapsed : List (String × Bool) := []
  priorityRules : List Gitdash.PriorityRule := []
  display : Gitdash.DisplayConfig := {}
  projects : List Gitdash.ProjectConfig := []
  activeProject : Int := -1
  cursor : Int := 0
  scrollOffset : Int := 0
  width : Int := 0
  height : Int := 0
deriving DecidableEq

/-- dashboard.New. -/
def New (rules : List Gitdash.PriorityRule) (display : Gitdash.DisplayConfig) : Model :=
  { priorityRules := rules, display := display, activeProject := -1 }

/-- dashboard isDocFile: `strings.HasSuffix(strings.ToLower(path), ".md")`
(lower-casing character-wise; path names here are ASCII). -/
def isDocFile (path : String) : Bool :=
  (".md".toList).isSuffixOf (path.toList.map Char.toLower)

/-- dashboard folderKey: `fmt.Sprintf` of the repo index, a colon and the
directory. -/
def folderKey (repoIndex : Int) (dir : String) : String :=
  toString repoIndex ++ ":" ++ dir

/-- Go map read `m.collapsed[ri]` (zero value false). -/
def Model.isCollapsed (m : Model) (ri : Int) : Bool :=
  Gitdash.mapGetD m.collapsed ri false

/-- dashboard isDocsCollapsed: absent means collapsed by default. -/
def Model.isDocsCollapsed (m : Model) (ri : Int) : Bool :=
  (Gitdash.mapGet? m.docsCollapsed ri).getD true

/-- dashboard isFolderCollapsed. -/
def Model.isFolderCollapsed (m : Model) (ri : Int) (dir : String) : Bool :=
  Gitdash.mapGetD m.foldersCollapsed (folderKey ri dir) false

/-- dashboard resolveTier's loop over the ordered rule list. The Go code
initialises each dimension's match to `len(set) == 0` and then scans the
set (the directory dimension scans the path's components), which is the
`isEmpty ||` disjunction below. -/
def resolveTierLoop (ext : String) (parts : List String) :
    List Gitdash.PriorityRule → Int
  | [] => 2
  | rule :: rest =>
    let extMatch := rule.Extensions.isEmpty || rule.Extensions.any (fun e => ext == e)
    let dirMatch := rule.Directories.isEmpty ||
      rule.Directories.any (fun d => parts.any (fun q => q == d))
    if extMatch && dirMatch then rule.Tier else resolveTierLoop ext parts rest

/-- dashboard resolveTier: first-match-wins over the rules, default 2. -/
def resolveTier (filePath : String) (rules : List Gitdash.PriorityRule) : Int :=
  resolveTierLoop (Gitdash.goExt filePath)
    (Gitdash.goSplitSlash (Gitdash.goDir filePath)) rules

/-- dashboard isNonSelectable: only section headers are skipped. -/
def isNonSelectable (kind : ItemKind) : Bool :=
  kind == .SectionHeader

/-- dashboard projectRepoOffset: sum of repo counts of the projects before
the given one (the Go loop stops at both `projectIndex` and the list
length; `take` does the same). -/
def projectRepoOffset (projects : List Gitdash.ProjectConfig) (projectIndex : Int) : Int :=
  ((projects.take projectIndex.toNat).map (fun p => (p.Repos.length : Int))).sum

/-- The comparator of dashboard rebuildFlatItems' `sortFiles` closure
(directory when folder-grouping is on, then tier, then path), applied to
(file index, file) pairs; the Go code sorts index slices and reads the
file through the index, which is the same comparison. -/
def fileLess (display : Gitdash.DisplayConfig) (rules : List Gitdash.PriorityRule)
    (a b : Int × Gitdash.FileEntry) : Bool :=
  let pa := a.2.Path
  let pb := b.2.Path
  if display.GroupFolders ∧ Gitdash.goDir pa ≠ Gitdash.goDir pb then
    Gitdash.goStrLt (Gitdash.goDir pa) (Gitdash.goDir pb)
  else if resolveTier pa rules ≠ resolveTier pb rules then
    decide (resolveTier pa rules < resolveTier pb rules)
  else Gitdash.goStrLt pa pb

/-- The `sortFiles` closure: `sort.SliceStable` under `fileLess`. -/
def sortFiles (display : Gitdash.DisplayConfig) (rules : List Gitdash.PriorityRule)
    (l : List (Int × Gitdash.FileEntry)) : List (Int × Gitdash.FileEntry) :=
  Gitdash.stableSort (fileLess display rules) l

/-- The `appendFilesWithFolders` closure of rebuildFlatItems: walks the
sorted (index, file) pairs, inserting a FolderHeader whenever the directory
changes (folder grouping on, non-root), and skipping files whose folder is
collapsed. The fold state is (lastDir, emitted items). -/
def appendFilesWithFolders (display : Gitdash.DisplayConfig)
    (rules : List Gitdash.PriorityRule) (folderCol : Int → String → Bool)
    (ri pj : Int) (repo : Gitdash.RepoStatus)
    (indices : List (Int × Gitdash.FileEntry)) (sectionName : String) : List FlatItem :=
  (indices.foldl (fun (st : String × List FlatItem) fe =>
    let file := fe.2
    let dir := Gitdash.goDir file.Path
    let st1 : String × List FlatItem :=
      if display.GroupFolders ∧ dir ≠ "." ∧ dir ≠ st.1 then
        (dir, st.2 ++ [{ Kind := .FolderHeader, RepoIndex := ri, ProjectIndex := pj,
                         Repo := some repo, Section := sectionName, Dir := dir }])
      else st
    if display.GroupFolders ∧ dir ≠ "." ∧ folderCol ri dir then st1
    else (st1.1, st1.2 ++ [{ Kind := .File, RepoIndex := ri, FileIndex := fe.1,
                             ProjectIndex := pj, File := some file, Repo := some repo,
                             Section := sectionName,
                             Tier := resolveTier file.Path rules, Dir := dir }])
  ) ("", [])).2

/-- The per-repo portion of rebuildFlatItems below the repo header: the
staged / unstaged / docs partition of `repo.Files` (in index order), the
stable sorts, and the three optional sections. -/
def repoBody (display : Gitdash.DisplayConfig) (rules : List Gitdash.PriorityRule)
    (docsCol : Int → Bool) (folderCol : Int → String → Bool)
    (ri pj : Int) (repo : Gitdash.RepoStatus) : List FlatItem :=
  let indexed := repo.Files.enum.map (fun p => ((p.1 : Int), p.2))
  let parts := indexed.foldl
    (fun (acc : List (Int × Gitdash.FileEntry) × List (Int × Gitdash.FileEntry) ×
               List (Int × Gitdash.FileEntry)) fe =>
      if display.GroupDocs ∧ isDocFile fe.2.Path then (acc.1, acc.2.1, acc.2.2 ++ [fe])
      else if fe.2.StagingState = .Staged then (acc.1 ++ [fe], acc.2.1, acc.2.2)
      else (acc.1, acc.2.1 ++ [fe], acc.2.2))
    ([], [], [])
  let staged := sortFiles display rules parts.1
  let unstaged := sortFiles display rules parts.2.1
  let docFiles := parts.2.2
  (if staged ≠ [] then
    { Kind := .SectionHeader, RepoIndex := ri, ProjectIndex := pj, Repo := some repo,
      Section := "staged" } ::
      appendFilesWithFolders display rules folderCol ri pj repo staged "staged"
   else []) ++
  (if unstaged ≠ [] then
    { Kind := .SectionHeader, RepoIndex := ri, ProjectIndex := pj, Repo := some repo,
      Section := "unstaged" } ::
      appendFilesWithFolders display rules folderCol ri pj repo unstaged "unstaged"
   else []) ++
  (if docFiles ≠ [] then
    ({ Kind := .DocHeader, RepoIndex := ri, ProjectIndex := pj, Repo := some repo,
       Section := "docs" } : FlatItem) ::
      (if !docsCol ri then
        (Gitdash.stableSort (fun a b => Gitdash.goStrLt a.2.Path b.2.Path) docFiles).map
          (fun fe => { Kind := .File, RepoIndex := ri, FileIndex := fe.1,
                       ProjectIndex := pj, File := some fe.2, Repo := some repo,
                       Section := "docs", Tier := 3 })
       else [])
   else [])

/-- One iteration of rebuildFlatItems' repo loop: out-of-range indices are
skipped (the Go `continue`); otherwise the repo header is appended, its
flat index recorded, and the body appended only when the repo has no error
and is not collapsed. -/
def repoStep (repos : List Gitdash.RepoStatus) (display : Gitdash.DisplayConfig)
    (rules : List Gitdash.PriorityRule) (col docsCol : Int → Bool)
    (folderCol : Int → String → Bool) (pj : Int)
    (acc : List FlatItem × List Int) (ri : Int) : List FlatItem × List Int :=
  match Gitdash.listIdx? repos ri with
  | none => acc
  | some repo =>
    (acc.1 ++ ({ Kind := .RepoHeader, RepoIndex := ri, ProjectIndex := pj,
                 Repo := some repo } : FlatItem) ::
       (if repo.Error ≠ none ∨ col ri then []
        else repoBody display rules docsCol folderCol ri pj repo),
     acc.2 ++ [(acc.1.length : Int)])

/-- The body of dashboard rebuildFlatItems as a pure function: flat items
and repo-header indices from the source data, the mode, and the collapse
lookups (the Go code reads its collapse maps only through these lookups).
The all-projects branch emits one ProjectHeader per project; otherwise the
repos of the active project (or all repos as fallback) are walked. -/
def buildDash (repos : List Gitdash.RepoStatus) (projects : List Gitdash.ProjectConfig)
    (activeProject : Int) (display : Gitdash.DisplayConfig)
    (rules : List Gitdash.PriorityRule) (col docsCol : Int → Bool)
    (folderCol : Int → String → Bool) : List FlatItem × List Int :=
  if activeProject = -1 ∧ 0 < projects.length then
    (projects.enum.map (fun p =>
      ({ Kind := .ProjectHeader, ProjectIndex := (p.1 : Int) } : FlatItem)), [])
  else
    let shown : List Int × Int :=
      if 0 ≤ activeProject ∧ activeProject < (projects.length : Int) then
        let offset := projectRepoOffset projects activeProject
        ((List.range (Gitdash.itemAt projects activeProject).Repos.length).map
          (fun i => offset + (i : Int)), activeProject)
      else ((List.range repos.length).map (fun i => ((i : Int))), 0)
    shown.1.foldl (repoStep repos display rules col docsCol folderCol shown.2) ([], [])

/-- The loop of dashboard skipNonSelectable: step by `dir` while the
cursor is in range and rests on a non-selectable item. The Go loop is
unbounded; `fuel` only bounds the modelled iteration count, and every call
below passes `length + 1`, which the loop can never exhaust for the
`dir = 1` and `dir = -1` call sites (each step moves one closer to a list
boundary). -/
def skipLoop (items : List FlatItem) (dir : Int) : Nat → Int → Int
  | 0, c => c
  | Nat.succ fuel, c =>
    if 0 ≤ c ∧ c < (items.length : Int) ∧ isNonSelectable (Gitdash.itemAt items c).Kind then
      skipLoop items dir fuel (c + dir)
    else c

/-- dashboard skipNonSelectable: directional scan, then on running off the
upper end a reverse scan from the last index, then a clamp of a negative
cursor to 0. (The Go reverse loop's condition omits the upper bound; it
starts at `len-1` and decreases, so the bounded loop is identical.) -/
def skipNonSelectable (items : List FlatItem) (c : Int) (dir : Int) : Int :=
  if items.length = 0 then c
  else
    let c1 := skipLoop items dir (items.length + 1) c
    let c2 := if c1 ≥ (items.length : Int) then
        skipLoop items (-1) (items.length + 1) ((items.length : Int) - 1)
      else c1
    if c2 < 0 then 0 else c2

/-- dashboard listHeight: one line is reserved for the trailing newline,
floored at 1. -/
def Model.listHeight (m : Model) : Int :=
  if m.height - 1 < 1 then 1 else m.height - 1

/-- dashboard ensureCursorVisible: scroll up to the cursor, or down so the
cursor is the last visible line; otherwise unchanged (`h` is the Go
method's local `h := m.listHeight()`). -/
def Model.ensureCursorVisible (m : Model) : Model :=
  if m.cursor < m.scrollOffset then { m with scrollOffset := m.cursor }
  else if m.cursor ≥ m.scrollOffset + m.listHeight then
    { m with scrollOffset := m.cursor - m.listHeight + 1 }
  else m

/-- dashboard rebuildFlatItems: rebuild the list and header index, clamp
the cursor into range, skip forward off a section header, re-clamp scroll. -/
def Model.rebuildFlatItems (m : Model) : Model :=
  let built := buildDash m.repos m.projects m.activeProject m.display m.priorityRules
    m.isCollapsed m.isDocsCollapsed m.isFolderCollapsed
  let items := built.1
  let c1 := if m.cursor ≥ (items.length : Int) then (items.length : Int) - 1 else m.cursor
  let c2 := if c1 < 0 then 0 else c1
  Model.ensureCursorVisible
    { m with flatItems := items, repoHeaders := built.2,
             cursor := skipNonSelectable items c2 1 }

/-- dashboard SetSize: records the size only; no cursor or scroll clamp. -/
def Model.SetSize (m : Model) (w h : Int) : Model :=
  { m with width := w, height := h }

/-- dashboard SetRepos: on a first load (empty collapse map) every repo is
marked collapsed, then the flat list is rebuilt. -/
def Model.SetRepos (m : Model) (repos : List Gitdash.RepoStatus) : Model :=
  Model.rebuildFlatItems
    { m with repos := repos,
             collapsed := if m.collapsed.isEmpty then
                 (List.range repos.length).foldl
                   (fun acc (i : Nat) => Gitdash.mapSet acc (i : Int) true) m.collapsed
               else m.collapsed }

/-- dashboard SetProjects. -/
def Model.SetProjects (m : Model) (projects : List Gitdash.ProjectConfig) : Model :=
  { m with projects := projects, activeProject := -1 }

/-- dashboard SelectedItem. -/
def Model.SelectedItem (m : Model) : Option FlatItem :=
  Gitdash.listIdx? m.flatItems m.cursor

/-- dashboard MoveDown. -/
def Model.MoveDown (m : Model) : Model :=
  if m.cursor < (m.flatItems.length : Int) - 1 then
    Model.ensureCursorVisible
      { m with cursor := skipNonSelectable m.flatItems (m.cursor + 1) 1 }
  else m

/-- dashboard MoveUp. -/
def Model.MoveUp (m : Model) : Model :=
  if m.cursor > 0 then
    Model.ensureCursorVisible
      { m with cursor := skipNonSelectable m.flatItems (m.cursor - 1) (-1) }
  else m

/-- dashboard ToggleCollapse: flips the collapse bit of the selected
item's repo and rebuilds. -/
def Model.ToggleCollapse (m : Model) : Model :=
  match m.SelectedItem with
  | none => m
  | some item =>
    Model.rebuildFlatItems
      { m with collapsed := (Gitdash.mapSet m.collapsed item.RepoIndex
          (!(Gitdash.mapGetD m.collapsed item.RepoIndex false))) }

/-- dashboard ToggleDocsCollapse: only acts on a selected DocHeader. -/
def Model.ToggleDocsCollapse (m : Model) : Model :=
  match m.SelectedItem with
  | none => m
  | some item =>
    if item.Kind = .DocHeader then
      Model.rebuildFlatItems
        { m with docsCollapsed := (Gitdash.mapSet m.docsCollapsed item.RepoIndex
            (!(m.isDocsCollapsed item.RepoIndex))) }
    else m

/-- dashboard ToggleFolderCollapse: only acts on a selected FolderHeader. -/
def Model.ToggleFolderCollapse (m : Model) : Model :=
  match m.SelectedItem with
  | none => m
  | some item =>
    if item.Kind = .FolderHeader then
      Model.rebuildFlatItems
        { m with foldersCollapsed := (Gitdash.mapSet m.foldersCollapsed
            (folderKey item.RepoIndex item.Dir)
            (!(Gitdash.mapGetD m.foldersCollapsed (folderKey item.RepoIndex item.Dir) false))) }
    else m

/-- dashboard ExitProject: back to all-projects mode, then restore the
cursor onto the header of the project just left, if still present. -/
def Model.ExitProject (m : Model) : Model :=
  let prev := m.activeProject
  let m1 := Model.rebuildFlatItems { m with activeProject := -1, cursor := 0, scrollOffset := 0 }
  match m1.flatItems.findIdx? (fun it => it.Kind == .ProjectHeader && it.ProjectIndex == prev) with
  | some i => Model.ensureCursorVisible { m1 with cursor := (i : Int) }
  | none => m1

end Dashboard

/-! ## Conductor panel (`tui/conductorpane/model.go`) -/

namespace Conductorpane

/-- conductorpane.Section. -/
inductive Section where
  | ListSection
  | DetailSection
deriving DecidableEq

/-- conductorpane.ItemKind. -/
inductive ItemKind where
  | SectionSpacer
  | FeatureHeader
  | FeatureItem
  | SessionHeader
  | HandoffItem
  | QualityHeader
  | QualityItem
  | MemoryHeader
  | MemoryItem
deriving DecidableEq

/-- conductorpane.FlatItem. Go's pointer back-references are optional
values here. -/
structure FlatItem where
  Kind : ItemKind := .SectionSpacer
  Feature : Option Gitdash.Feature := none
  Session : Option Gitdash.Session := none
  Handoff : Option Gitdash.Handoff := none
  Quality : Option Gitdash.QualityReflection := none
  Memory : Option Gitdash.Memory := none
  Label : String := ""
deriving DecidableEq

instance : Inhabited FlatItem := ⟨{}⟩

/-- conductorpane.Model. The detail viewport (`detailVP`, a bubbles
viewport populated by `updateDetailContent`) is display-only and not
modelled; the cursor, scroll, collapse and list state are complete. -/
structure Model where
  flatItems : List FlatItem := []
  collapsed : List (ItemKind × Bool) := []
  cursor : Int := 0
  scrollOffset : Int := 0
  width : Int := 0
  height : Int := 0
  activeSection : Section := .ListSection
  data : Option Gitdash.ConductorData := none
  hasConductor : Bool := false
deriving DecidableEq

/-- conductorpane.New: memories are collapsed by default. -/
def New : Model :=
  { collapsed := [(.MemoryHeader, true)] }

/-- conductorpane isHeader. -/
def isHeader (k : ItemKind) : Bool :=
  k == .FeatureHeader || k == .SessionHeader || k == .QualityHeader || k == .MemoryHeader

/-- Go map read `m.collapsed[kind]` (zero value false). -/
def Model.isCollapsed (m : Model) (k : ItemKind) : Bool :=
  Gitdash.mapGetD m.collapsed k false

/-- The handoff items of conductorpane rebuildFlatItems' session section:
current task, next steps, blockers, modified files, each prefixed as in
the Go code. -/
def handoffItems (h : Gitdash.Handoff) : List FlatItem :=
  (if h.CurrentTask ≠ "" then
    [{ Kind := .HandoffItem, Handoff := some h, Label := "Task:  " ++ h.CurrentTask }]
   else []) ++
  h.NextSteps.map (fun s => { Kind := .HandoffItem, Handoff := some h, Label := "Next:  " ++ s }) ++
  h.Blockers.map (fun s => { Kind := .HandoffItem, Handoff := some h, Label := "Block: " ++ s }) ++
  h.FilesModified.map (fun s => { Kind := .HandoffItem, Handoff := some h, Label := "File:  " ++ s })

/-- The quality items of one QualityReflection, in the Go emission order. -/
def qualityItems (q : Gitdash.QualityReflection) : List FlatItem :=
  q.ShortcutsTaken.map (fun s => { Kind := .QualityItem, Quality := some q, Label := "Shortcut: " ++ s }) ++
  q.TestsSkipped.map (fun s => { Kind := .QualityItem, Quality := some q, Label := "Skipped: " ++ s }) ++
  q.KnownLimitations.map (fun s => { Kind := .QualityItem, Quality := some q, Label := "Limit: " ++ s }) ++
  q.DeferredWork.map (fun s => { Kind := .QualityItem, Quality := some q, Label := "Deferred: " ++ s }) ++
  q.TechnicalDebt.map (fun s => { Kind := .QualityItem, Quality := some q, Label := "Debt: " ++ s })

/-- The list portion of conductorpane rebuildFlatItems, as a pure function
of the data and the collapse lookup: features header (non-passed features
first, then passed), optional session section with handoff items, optional
quality and memories sections, with a SectionSpacer before each section
after the first. -/
def buildCond (data : Option Gitdash.ConductorData) (col : ItemKind → Bool) : List FlatItem :=
  match data with
  | none => []
  | some d =>
    ({ Kind := .FeatureHeader,
       Label := toString d.Passed ++ "/" ++ toString d.Total ++ " passed" } : FlatItem) ::
    ((if !col .FeatureHeader then
        (d.Features.filter (fun f => f.Status ≠ "passed")).map
          (fun f => ({ Kind := .FeatureItem, Feature := some f } : FlatItem)) ++
        (d.Features.filter (fun f => f.Status = "passed")).map
          (fun f => ({ Kind := .FeatureItem, Feature := some f } : FlatItem))
      else []) ++
     (match d.Session with
      | none => []
      | some s =>
        ({ Kind := .SectionSpacer } : FlatItem) ::
        ({ Kind := .SessionHeader, Session := some s, Label := s.Status } : FlatItem) ::
        (if !col .SessionHeader then
          match d.Handoff with
          | none => []
          | some h => handoffItems h
         else [])) ++
     (if d.Quality ≠ [] then
        ({ Kind := .SectionSpacer } : FlatItem) ::
        ({ Kind := .QualityHeader, Label := toString d.Quality.length } : FlatItem) ::
        (if !col .QualityHeader then (d.Quality.map qualityItems).flatten else [])
      else []) ++
     (if d.Memories ≠ [] then
        ({ Kind := .SectionSpacer } : FlatItem) ::
        ({ Kind := .MemoryHeader, Label := toString d.Memories.length } : FlatItem) ::
        (if !col .MemoryHeader then
          d.Memories.map (fun mem => ({ Kind := .MemoryItem, Memory := some mem } : FlatItem))
         else [])
      else []))

/-- conductorpane rebuildFlatItems: rebuild the list, then clamp the
cursor to `max 0 (len-1)` only when it ran past the end — nothing moves it
off a non-selectable spacer. -/
def Model.rebuildFlatItems (m : Model) : Model :=
  let items := buildCond m.data m.isCollapsed
  let c := if m.cursor ≥ (items.length : Int) then max 0 ((items.length : Int) - 1) else m.cursor
  { m with flatItems := items, cursor := c }

/-- conductorpane listHeight: above 15 total lines, 35 percent of the
height (floored at 6) goes to the detail viewport plus one divider line. -/
def Model.listHeight (m : Model) : Int :=
  if m.height > 15 then
    m.height - (if m.height * 35 / 100 < 6 then 6 else m.height * 35 / 100) - 1
  else m.height

/-- The floored list height conductorpane ensureCursorVisible computes
into its local `listH`. -/
def Model.listHeightFloor (m : Model) : Int :=
  if m.listHeight < 1 then 1 else m.listHeight

/-- conductorpane ensureCursorVisible (its height floor is applied here,
unlike the dashboard's which floors inside listHeight). -/
def Model.ensureCursorVisible (m : Model) : Model :=
  if m.cursor < m.scrollOffset then { m with scrollOffset := m.cursor }
  else if m.cursor ≥ m.scrollOffset + m.listHeightFloor then
    { m with scrollOffset := m.cursor - m.listHeightFloor + 1 }
  else m

/-- conductorpane SetSize: records the size (the Go method additionally
re-renders the detail viewport, which is display-only). -/
def Model.SetSize (m : Model) (w h : Int) : Model :=
  { m with width := w, height := h }

/-- conductorpane SetData: store the snapshot and rebuild (the trailing
`updateDetailContent` is display-only). -/
def Model.SetData (m : Model) (data : Option Gitdash.ConductorData) : Model :=
  Model.rebuildFlatItems { m with data := data, hasConductor := data.isSome }

/-- The loop of conductorpane skipNonSelectable: while in range, stop on
anything but a spacer, else step by `dir`. Fuel as in the dashboard's
`skipLoop`; `length + 1` can never be exhausted at the `dir = 1` and
`dir = -1` call sites. -/
def skipLoop (items : List FlatItem) (dir : Int) : Nat → Int → Int
  | 0, c => c
  | Nat.succ fuel, c =>
    if 0 ≤ c ∧ c < (items.length : Int) then
      if (Gitdash.itemAt items c).Kind ≠ .SectionSpacer then c
      else skipLoop items dir fuel (c + dir)
    else c

/-- conductorpane skipNonSelectable: directional scan, then clamp a
negative cursor to 0 and an overrun cursor to the last index (with no
re-scan after either clamp). -/
def skipNonSelectable (items : List FlatItem) (c : Int) (dir : Int) : Int :=
  let c1 := skipLoop items dir (items.length + 1) c
  let c2 := if c1 < 0 then 0 else c1
  if c2 ≥ (items.length : Int) then (items.length : Int) - 1 else c2

/-- conductorpane MoveDown. -/
def Model.MoveDown (m : Model) : Model :=
  if m.flatItems.length = 0 then m
  else
    let c := m.cursor + 1
    let c := if c ≥ (m.flatItems.length : Int) then (m.flatItems.length : Int) - 1 else c
    Model.ensureCursorVisible { m with cursor := skipNonSelectable m.flatItems c 1 }

/-- conductorpane MoveUp. -/
def Model.MoveUp (m : Model) : Model :=
  if m.flatItems.length = 0 then m
  else
    let c := m.cursor - 1
    let c := if c < 0 then 0 else c
    Model.ensureCursorVisible { m with cursor := skipNonSelectable m.flatItems c (-1) }

/-- conductorpane ToggleCollapse: flips the collapse bit of the header
kind under the cursor and rebuilds; anything else is a no-op. -/
def Model.ToggleCollapse (m : Model) : Model :=
  if m.flatItems.length = 0 ∨ m.cursor < 0 ∨ m.cursor ≥ (m.flatItems.length : Int) then m
  else
    let item := Gitdash.itemAt m.flatItems m.cursor
    if isHeader item.Kind then
      Model.rebuildFlatItems
        { m with collapsed := (Gitdash.mapSet m.collapsed item.Kind
            (!(Gitdash.mapGetD m.collapsed item.Kind false))) }
    else m

end Conductorpane

/-! ## Graph pane (`tui/graphpane/model.go`) -/

namespace Graphpane

/-- graphpane.Section. -/
inductive Section where
  | GraphSection
  | FilesSection
deriving DecidableEq

/-- graphpane.Model. Display-only state is not modelled: the two bubbles
viewports (`graphVP`, `filesVP`) and the pre-rendered line cache
(`renderedLines`), the linked-features map and the conductor
`commitContext` (both read only by the renderers). The cursor, commit
index, detail, file-expand and file-diff caches are complete. -/
structure Model where
  repoPath : String := ""
  lines : List Gitdash.GraphLine := []
  cursor : Int := 0
  commitIndices : List Int := []
  detail : Option Gitdash.CommitDetail := none
  detailHash : String := ""
  fileCursor : Int := 0
  fileExpanded : List (String × Bool) := []
  fileDiffs : List (String × String) := []
  activeSection : Section := .GraphSection
  showIcons : Bool := false
  ready : Bool := false
  width : Int := 0
  height : Int := 0
deriving DecidableEq

/-- graphpane.New. -/
def New : Model := {}

/-- graphpane SetSize (the cached-line rebuild and viewport relayout are
display-only). -/
def Model.SetSize (m : Model) (w h : Int) : Model :=
  { m with width := w, height := h, ready := true }

/-- graphpane SetGraph: replace the line data, clear the commit detail and
the whole per-file expand/diff state, rebuild the commit index and reset
the cursor to the top. -/
def Model.SetGraph (m : Model) (lines : List Gitdash.GraphLine) (repoPath : String) : Model :=
  { m with lines := lines, repoPath := repoPath, detail := none, detailHash := "",
           fileCursor := 0, fileExpanded := [], fileDiffs := [],
           activeSection := .GraphSection,
           commitIndices := (lines.enum.filter (fun p => p.2.IsCommit)).map
             (fun p => ((p.1 : Int))),
           cursor := 0 }

/-- graphpane SetCommitDetail: install the detail and reset the per-file
expand/diff state (the conductor context clear and viewport relayout are
display-only). -/
def Model.SetCommitDetail (m : Model) (detail : Gitdash.CommitDetail) : Model :=
  { m with detail := some detail, detailHash := detail.Hash,
           fileCursor := 0, fileExpanded := [], fileDiffs := [] }

/-- graphpane SetFileDiff: cache a fetched diff by path (the viewport
refresh is display-only). -/
def Model.SetFileDiff (m : Model) (path diff : String) : Model :=
  { m with fileDiffs := Gitdash.mapSet m.fileDiffs path diff }

/-- graphpane MoveDown on the commit list (the graph viewport scroll is
display-only). -/
def Model.MoveDown (m : Model) : Model :=
  if m.commitIndices.length = 0 then m
  else if m.cursor < (m.commitIndices.length : Int) - 1 then { m with cursor := m.cursor + 1 }
  else m

/-- graphpane MoveUp on the commit list. -/
def Model.MoveUp (m : Model) : Model :=
  if m.commitIndices.length = 0 then m
  else if m.cursor > 0 then { m with cursor := m.cursor - 1 }
  else m

/-- graphpane SelectedHash: the hash of the commit line under the cursor,
or empty when there are no commits. (The Go code indexes `commitIndices`
unconditionally; the cursor is always in range there, and `itemAt`
defaults are never reached on such states.) -/
def Model.SelectedHash (m : Model) : String :=
  if m.commitIndices.length = 0 then ""
  else
    let lineIdx := Gitdash.itemAt m.commitIndices m.cursor
    if lineIdx < (m.lines.length : Int) then (Gitdash.itemAt m.lines lineIdx).Hash
    else ""

/-- graphpane ToggleFileExpand: collapse an expanded file, or expand and
report the path to fetch when its diff is not cached yet (the viewport
refreshes are display-only). Returns the model and the path to fetch
(empty when no fetch is needed), as the Go method does. -/
def Model.ToggleFileExpand (m : Model) : Model × String :=
  match m.detail with
  | none => (m, "")
  | some d =>
    if d.Files.length = 0 then (m, "")
    else
      let path := (Gitdash.itemAt d.Files m.fileCursor).Path
      if Gitdash.mapGetD m.fileExpanded path false then
        ({ m with fileExpanded := Gitdash.mapSet m.fileExpanded path false }, "")
      else
        let m1 := { m with fileExpanded := Gitdash.mapSet m.fileExpanded path true }
        if (Gitdash.mapGet? m.fileDiffs path).isSome then (m1, "")
        else (m1, path)

end Graphpane

/-! ## Top-level app (`tui/app.go`)

The embedding covers the dashboard view's focus routing
(`handleDashboardKey`), the window-resize case and the commit-detail
completion case of `Update`. Keys are restricted to the navigation keys
the claims mention; the feature-linker overlay is assumed hidden (its
branch short-circuits everything and is orthogonal to the claims), and
emitted commands other than the commit-detail fetch (status/graph/conductor
refreshes, quit) are not modelled as effects. -/

namespace App

/-- tui.FocusPanel. -/
inductive FocusPanel where
  | FocusDashboard
  | FocusGraph
  | FocusConductor
deriving DecidableEq

/-- The navigation keys the modelled `handleDashboardKey` cases match
(`shared.Keys.Down/Up/FocusLeft/FocusRight/Escape/ToggleGraph/ToggleConductor`). -/
inductive DashKey where
  | Down
  | Up
  | FocusLeft
  | FocusRight
  | Escape
  | ToggleGraph
  | ToggleConductor
deriving DecidableEq

/-- A `fetchCommitDetailCmd` the key handler emits. -/
structure FetchReq where
  repoPath : String := ""
  hash : String := ""
deriving DecidableEq

/-- The tui.App state the modelled transitions read and write. `dashPct`
stands for the resolved `cfg.ResolvedDashboardWidth()` and `cfgProjects`
for `cfg.Projects`. -/
structure State where
  cfgProjects : List Gitdash.ProjectConfig := []
  dashPct : Int := 25
  width : Int := 0
  height : Int := 0
  showGraph : Bool := false
  showConductor : Bool := false
  graphFocused : Bool := false
  focusPanel : FocusPanel := .FocusDashboard
  graphRepo : String := ""
  lastDetailHash : String := ""
  conductorRepo : String := ""
  dashboard : Dashboard.Model := {}
  graphPane : Graphpane.Model := {}
  conductorPane : Conductorpane.Model := Conductorpane.New
deriving DecidableEq

/-- app layoutSizes: the three layout regimes of the dashboard view; the
pane `SetSize` calls are as in the Go code. (Go integer division truncates
toward zero; on the non-negative widths of real window sizes the `Int`
division here agrees.) -/
def State.layoutSizes (a : State) : State :=
  let contentH := a.height - 1
  let contentH := if contentH < 3 then 3 else contentH
  if a.showGraph ∧ a.showConductor ∧ a.width > 80 then
    let dashW := a.width * a.dashPct / 100
    let conductorW := a.width * 30 / 100
    let graphW := a.width - dashW - conductorW
    let graphW := if graphW < 20 then 20 else graphW
    { a with dashboard := a.dashboard.SetSize dashW contentH,
             graphPane := a.graphPane.SetSize (graphW - 1) contentH,
             conductorPane := a.conductorPane.SetSize (conductorW - 1) contentH }
  else if a.showGraph ∧ a.width > 40 then
    let graphW := a.width / 2
    let dashW := a.width - graphW
    { a with dashboard := a.dashboard.SetSize dashW contentH,
             graphPane := a.graphPane.SetSize (graphW - 1) contentH }
  else
    { a with dashboard := a.dashboard.SetSize a.width contentH }

/-- The `tea.WindowSizeMsg` case of app Update: record the size and
recompute the layout. Nothing here touches `focusPanel` or the visibility
flags. (The `SetSize` calls on the non-dashboard views are display-only.) -/
def State.updateWindowSize (a : State) (w h : Int) : State :=
  State.layoutSizes { a with width := w, height := h }

/-- Whether the dashboard layout renders the conductor pane
(`renderDashboardLayout`: only the 3-column regime shows it). -/
def State.conductorVisible (a : State) : Bool :=
  a.showGraph && a.showConductor && decide (a.width > 80)

/-- Whether the dashboard layout renders the graph pane (3-column or
2-column regime). -/
def State.graphVisible (a : State) : Bool :=
  a.showGraph && decide (a.width > 40)

/-- The conductor pane's key handling (conductorpane Update) for the
modelled keys: list-section Down/Up move the cursor; detail-section Escape
returns to the list (detail-section Down/Up scroll the unmodelled detail
viewport). -/
def condKeyUpdate (cm : Conductorpane.Model) (k : DashKey) : Conductorpane.Model :=
  match cm.activeSection with
  | .ListSection =>
    match k with
    | .Down => cm.MoveDown
    | .Up => cm.MoveUp
    | _ => cm
  | .DetailSection =>
    match k with
    | .Escape => { cm with activeSection := .ListSection }
    | _ => cm

/-- The graph pane's key handling (graphpane Update) for the modelled
keys: graph-section Down/Up move the commit cursor; files-section Escape
returns to the graph section (files-section Down/Up, `FileDown`/`FileUp`,
only move the file cursor and the unmodelled files viewport and never
change the selected commit). -/
def graphKeyUpdate (g : Graphpane.Model) (k : DashKey) : Graphpane.Model :=
  match g.activeSection with
  | .GraphSection =>
    match k with
    | .Down => g.MoveDown
    | .Up => g.MoveUp
    | _ => g
  | .FilesSection =>
    match k with
    | .Escape => { g with activeSection := .GraphSection }
    | _ => g

/-- app handleDashboardKey for the modelled keys, with the overlay hidden:
the conductor-focused branch, the graph-focused branch (whose default case
is the edge-triggered commit-detail fetch guard), and the dashboard-focused
branch in its all-projects and project-detail variants. The second
component is the emitted `fetchCommitDetailCmd`, when any. -/
def State.handleDashboardKey (a : State) (k : DashKey) : State × Option FetchReq :=
  if a.focusPanel = .FocusConductor then
    match k with
    | .FocusLeft => ({ a with focusPanel := .FocusGraph, graphFocused := true }, none)
    | .Escape =>
      if a.conductorPane.activeSection = .DetailSection then
        ({ a with conductorPane := condKeyUpdate a.conductorPane .Escape }, none)
      else ({ a with focusPanel := .FocusDashboard, graphFocused := false }, none)
    | .ToggleGraph =>
      (State.layoutSizes { a with showGraph := false, graphFocused := false,
                                  focusPanel := .FocusDashboard }, none)
    | .ToggleConductor =>
      (State.layoutSizes { a with showConductor := false, focusPanel := .FocusDashboard,
                                  graphFocused := false }, none)
    | _ => ({ a with conductorPane := condKeyUpdate a.conductorPane k }, none)
  else if a.graphFocused ∨ a.focusPanel = .FocusGraph then
    match k with
    | .FocusLeft => ({ a with graphFocused := false, focusPanel := .FocusDashboard }, none)
    | .Escape => ({ a with graphFocused := false, focusPanel := .FocusDashboard }, none)
    | .FocusRight =>
      if a.showGraph ∧ a.showConductor ∧ a.width > 80 then
        ({ a with focusPanel := .FocusConductor, graphFocused := false }, none)
      else (a, none)
    | .ToggleGraph =>
      (State.layoutSizes { a with showGraph := false, graphFocused := false,
                                  focusPanel := .FocusDashboard }, none)
    | .ToggleConductor =>
      (State.layoutSizes { a with showConductor := !a.showConductor }, none)
    | _ =>
      let prevHash := a.graphPane.SelectedHash
      let g1 := graphKeyUpdate a.graphPane k
      let newHash := g1.SelectedHash
      let a1 := { a with graphPane := g1 }
      if newHash ≠ "" ∧ newHash ≠ prevHash ∧ newHash ≠ a.lastDetailHash then
        (a1, some { repoPath := g1.repoPath, hash := newHash })
      else (a1, none)
  else if a.dashboard.activeProject = -1 ∧ 0 < a.cfgProjects.length then
    match k with
    | .Down => ({ a with dashboard := a.dashboard.MoveDown }, none)
    | .Up => ({ a with dashboard := a.dashboard.MoveUp }, none)
    | .FocusRight =>
      if a.showGraph then ({ a with graphFocused := true, focusPanel := .FocusGraph }, none)
      else (a, none)
    | .ToggleGraph =>
      (State.layoutSizes { a with showGraph := !a.showGraph, graphFocused := false,
                                  focusPanel := .FocusDashboard }, none)
    | .ToggleConductor =>
      let a1 := { a with showConductor := !a.showConductor }
      let a2 := if !a1.showConductor ∧ a1.focusPanel = .FocusConductor then
          { a1 with focusPanel := .FocusDashboard, graphFocused := false }
        else a1
      (State.layoutSizes a2, none)
    | _ => (a, none)
  else
    match k with
    | .Escape =>
      if a.dashboard.activeProject ≥ 0 then
        ({ a with dashboard := a.dashboard.ExitProject, graphRepo := "",
                  conductorRepo := "" }, none)
      else (a, none)
    | .FocusRight =>
      if a.showGraph then ({ a with graphFocused := true, focusPanel := .FocusGraph }, none)
      else (a, none)
    | .ToggleGraph =>
      (State.layoutSizes { a with showGraph := !a.showGraph, graphFocused := false,
                                  focusPanel := .FocusDashboard }, none)
    | .ToggleConductor =>
      let a1 := { a with showConductor := !a.showConductor }
      let a2 := if !a1.showConductor ∧ a1.focusPanel = .FocusConductor then
          { a1 with focusPanel := .FocusDashboard, graphFocused := false }
        else a1
      (State.layoutSizes a2, none)
    | .Down => ({ a with dashboard := a.dashboard.MoveDown }, none)
    | .Up => ({ a with dashboard := a.dashboard.MoveUp }, none)
    | .FocusLeft => (a, none)

/-- shared.CommitDetailFetchedMsg. -/
structure CommitDetailFetchedMsg where
  Detail : Gitdash.CommitDetail := {}
  RepoPath : String := ""
  Hash : String := ""
  Err : Option String := none
deriving DecidableEq

/-- The `shared.CommitDetailFetchedMsg` case of app Update: any successful
result is applied unconditionally — the detail is installed in the graph
pane and `lastDetailHash` recorded, with no comparison against the
currently selected commit. (The follow-up conductor commit-context fetch
is outside the modelled effects.) -/
def State.updateCommitDetailFetched (a : State) (msg : CommitDetailFetchedMsg) : State :=
  if msg.Err = none then
    { a with graphPane := a.graphPane.SetCommitDetail msg.Detail,
             lastDetailHash := msg.Hash }
  else a

end App

/-! ## Specification-side definitions and concrete fixtures

`tierFirstMatch` is the one definition written from the specification's
words rather than the source: the tier policy as the spec states it, to be
compared with `resolveTier`. The fixtures below are the concrete inputs
the theorems evaluate the embedding on; each is built through the modelled
public operations, so every fixture state is reachable. -/

/-- Claim-side statement of the tier policy: the tier of the first rule
matching on both dimensions (an empty set is a wildcard), 2 when no rule
matches. -/
def tierFirstMatch (filePath : String) (rules : List PriorityRule) : Int :=
  let ext := goExt filePath
  let parts := goSplitSlash (goDir filePath)
  match rules.find? (fun r =>
      (r.Extensions.isEmpty || r.Extensions.any (fun e => ext == e)) &&
      (r.Directories.isEmpty || r.Directories.any (fun d => parts.any (fun q => q == d)))) with
  | some r => r.Tier
  | none => 2

/-- Claim-side cursor-move alphabet: the dashboard's MoveDown/MoveUp (the
spec's `moveBy(±1)`). -/
inductive DashMove where
  | down
  | up
deriving DecidableEq

/-- Apply a sequence of cursor moves to a dashboard model. -/
def applyDashMoves (m : Dashboard.Model) (moves : List DashMove) : Dashboard.Model :=
  moves.foldl (fun acc mv => match mv with
    | .down => acc.MoveDown
    | .up => acc.MoveUp) m

/-- Invariant I1 at a dashboard state: the cursor is in range and rests on
a selectable item. -/
def SelOk (m : Dashboard.Model) : Prop :=
  0 ≤ m.cursor ∧ m.cursor < (m.flatItems.length : Int) ∧
    Dashboard.isNonSelectable (itemAt m.flatItems m.cursor).Kind = false

/-- Invariant I2 at a dashboard state, with the panel's own visible height
(`listHeight`, which is at least 1). -/
def I2 (m : Dashboard.Model) : Prop :=
  m.scrollOffset ≤ m.cursor ∧ m.cursor ≤ m.scrollOffset + m.listHeight - 1

/-- A flat list whose first item, if any, is selectable. Every list the
dashboard builder produces is of this shape (it opens with a project or
repo header), and it is exactly what the cursor-skip scan needs at the
lower boundary. -/
def HeadSel (items : List Dashboard.FlatItem) : Prop :=
  items = [] ∨ Dashboard.isNonSelectable (itemAt items 0).Kind = false

/-- The I1 state invariant the dashboard maintains: an empty list with the
cursor at 0, or a head-selectable list with the cursor on a selectable
item. -/
def SelInv (m : Dashboard.Model) : Prop :=
  (m.flatItems = [] ∧ m.cursor = 0) ∨
  (Dashboard.isNonSelectable (itemAt m.flatItems 0).Kind = false ∧ SelOk m)

/-- The focus-visibility invariant of the spec: focus never points at a
panel the dashboard layout does not render. -/
def FocusInv (a : App.State) : Prop :=
  (a.focusPanel = .FocusGraph → a.graphVisible = true) ∧
  (a.focusPanel = .FocusConductor → a.conductorVisible = true)

/-- A dashboard state whose flat list agrees with its own data and
collapse state (every state the panel exposes is of this shape: each
mutation ends in `rebuildFlatItems`). -/
def DashConsistent (m : Dashboard.Model) : Prop :=
  m.flatItems = (Dashboard.buildDash m.repos m.projects m.activeProject m.display
    m.priorityRules m.isCollapsed m.isDocsCollapsed m.isFolderCollapsed).1

/-- A conductor-pane state whose flat list agrees with its data and
collapse state. -/
def CondConsistent (cm : Conductorpane.Model) : Prop :=
  cm.flatItems = Conductorpane.buildCond cm.data cm.isCollapsed

namespace Fixtures

/-- A repo whose staged and unstaged sections share the directory `src`. -/
def repoShared : Gitdash.RepoStatus :=
  { Name := "r0", Path := "/r0", Branch := "main",
    Files := [ { Path := "src/a.go", StagingState := .Staged },
               { Path := "src/b.go", StagingState := .Unstaged },
               { Path := "zz/c.go", StagingState := .Unstaged } ] }

/-- Folder grouping on. -/
def dispFolders : Gitdash.DisplayConfig := { GroupFolders := true }

/-- n anonymous clean repos. -/
def plainRepos (n : Nat) : List Gitdash.RepoStatus :=
  (List.range n).map (fun i => { Name := toString i, Path := "/" ++ toString i })

/-- Reachable dashboard state with the cursor on the unstaged `src`
FolderHeader: first load (auto-collapse), expand the repo, three cursor
moves down. -/
def dashFolder : Dashboard.Model :=
  ((((Dashboard.New [] dispFolders).SetRepos [repoShared]).ToggleCollapse).MoveDown).MoveDown.MoveDown

/-- Reachable dashboard state for the resize counterexample: 5 collapsed
repo headers at a tall window, the cursor moved to the last one, then a
resize to 4 rows. -/
def dashResize : Dashboard.Model :=
  (((((((Dashboard.New [] {}).SetSize 80 30).SetRepos (plainRepos 5)).MoveDown).MoveDown).MoveDown).MoveDown).SetSize 80 4

/-- Reachable dashboard state for the over-scroll counterexample: 8 repo
headers at a 6-row window scrolled to the bottom, then a refresh that
shrinks the list to 3 headers. -/
def dashShrunk : Dashboard.Model :=
  ((((((((((Dashboard.New [] {}).SetSize 80 6).SetRepos (plainRepos 8)).MoveDown).MoveDown).MoveDown).MoveDown).MoveDown).MoveDown).MoveDown).SetRepos (plainRepos 3)

/-- A first SetRepos with an empty repo list leaves the collapse map
empty. -/
def dashEmptyFirst : Dashboard.Model :=
  (Dashboard.New [] {}).SetRepos []

/-- The next SetRepos then finds the map empty again and populates it. -/
def dashEmptyThenOne : Dashboard.Model :=
  dashEmptyFirst.SetRepos (plainRepos 1)

/-- Conductor data: one pending feature and an active session. -/
def condData1 : Gitdash.ConductorData :=
  { Features := [{ ID := "f1", Description := "one", Status := "pending" }],
    Session := some { Number := 1, Status := "active" }, Passed := 0, Total := 1 }

/-- The same snapshot after the feature list emptied. -/
def condData2 : Gitdash.ConductorData := { condData1 with Features := [] }

/-- Reachable conductor state: load data, move onto the feature item, then
refresh with the shrunken snapshot. -/
def condRefreshed : Conductorpane.Model :=
  (((Conductorpane.New).SetData (some condData1)).MoveDown).SetData (some condData2)

/-- Two commit lines, hashes c2 and c3. -/
def graphLines : List Gitdash.GraphLine :=
  [ { GraphChars := "* ", Hash := "c2", IsCommit := true },
    { GraphChars := "* ", Hash := "c3", IsCommit := true } ]

/-- Reachable graph pane with the cursor on c3. -/
def graphOnC3 : Graphpane.Model :=
  ((Graphpane.New).SetGraph graphLines "/repo").MoveDown

/-- The stale c2 detail result. -/
def detailC2 : Gitdash.CommitDetail := { Hash := "c2", Author := "a", Files := [{ Path := "a.go" }] }

/-- App state whose graph pane selects c3. -/
def appOnC3 : App.State :=
  { showGraph := true, width := 100, height := 40, graphPane := graphOnC3 }

/-- The same app after the stale c2 detail message arrives. -/
def appStaleApplied : App.State :=
  appOnC3.updateCommitDetailFetched { Detail := detailC2, RepoPath := "/repo", Hash := "c2" }

/-- App state focused on the visible conductor pane at width 100. -/
def appConductorFocused : App.State :=
  { width := 100, height := 40, showGraph := true, showConductor := true,
    focusPanel := .FocusConductor }

/-- The same app after the terminal narrows to 60 columns. -/
def appNarrowed : App.State :=
  appConductorFocused.updateWindowSize 60 40

/-- Docs grouping on. -/
def dispDocs : Gitdash.DisplayConfig := { GroupDocs := true }

/-- A repo with two markdown files and one code file. -/
def repoDocs : Gitdash.RepoStatus :=
  { Name := "r1", Path := "/r1",
    Files := [ { Path := "b.md" },
               { Path := "a.go", StagingState := .Unstaged },
               { Path := "a.md" } ] }

/-- Reachable dashboard state with the cursor on the Documents header. -/
def dashDocsHeader : Dashboard.Model :=
  ((((Dashboard.New [] dispDocs).SetRepos [repoDocs]).ToggleCollapse).MoveDown).MoveDown

/-- Reachable dashboard state with the cursor on the staged `src`
FolderHeader (whose folder key survives its own collapse). -/
def dashFolderStaged : Dashboard.Model :=
  (((Dashboard.New [] dispFolders).SetRepos [repoShared]).ToggleCollapse).MoveDown

/-- Reachable conductor state with the cursor on the Features header. -/
def condOnHeader : Conductorpane.Model :=
  (Conductorpane.New).SetData (some condData1)

/-- Reachable app state focused on the graph pane with the cursor on the
first commit and no detail fetched yet. -/
def appGraphFocused : App.State :=
  { showGraph := true, width := 100, height := 40, graphFocused := true,
    focusPanel := .FocusGraph,
    graphPane := (Graphpane.New).SetGraph graphLines "/repo" }

/-- Reachable graph pane with a commit detail installed and the file
`a.go` expanded by the user. -/
def graphExpanded : Graphpane.Model :=
  ((((Graphpane.New).SetGraph graphLines "/repo").SetCommitDetail detailC2).ToggleFileExpand).1

/-- The same pane after a graph refresh delivering identical lines. -/
def graphRefreshed : Graphpane.Model :=
  graphExpanded.SetGraph graphLines "/repo"

end Fixtures

end Gitdash

/-! # Theorems

One theorem per claim of the specification review, preceded by the shared
lemmas they use. -/

namespace Gitdash

theorem mapGet?_set_self [DecidableEq κ] (l : List (κ × ν)) (k : κ) (v : ν) :
    mapGet? (mapSet l k v) k = some v := by
  induction l with
  | nil => simp [mapSet, mapGet?]
  | cons p rest ih =>
    by_cases h : p.1 = k
    · simp [mapSet, h, mapGet?]
    · simp [mapSet, h, mapGet?, ih]

theorem mapGet?_set_other [DecidableEq κ] (l : List (κ × ν)) (k k2 : κ) (v : ν)
    (h : k2 ≠ k) : mapGet? (mapSet l k v) k2 = mapGet? l k2 := by
  induction l with
  | nil => simp [mapSet, mapGet?, Ne.symm h]
  | cons p rest ih =>
    by_cases hp : p.1 = k
    · subst hp
      simp [mapSet, mapGet?, Ne.symm h]
    · by_cases hp2 : p.1 = k2
      · subst hp2
        simp [mapSet, hp, mapGet?]
      · simp [mapSet, hp, mapGet?, hp2, ih]

/-- Writing a key twice, the second time with its original defaulted
value, is invisible to defaulted reads: the core fact behind
collapse-toggle idempotence. -/
theorem mapGetD_toggle_toggle [DecidableEq κ] (l : List (κ × ν)) (k k2 : κ)
    (v1 v2 : ν) (d : ν) (hv : v2 = mapGetD l k d) :
    mapGetD (mapSet (mapSet l k v1) k v2) k2 d = mapGetD l k2 d := by
  by_cases h : k2 = k
  · subst h
    simp [mapGetD, mapGet?_set_self, hv]
  · simp [mapGetD, mapGet?_set_other _ _ _ _ h]

/-- C8: the resolved tier of a file path is the tier of the first rule
matching on both the extension dimension and the directory dimension, an
empty set being a wildcard on its dimension, and 2 when no rule matches —
`resolveTier` coincides with the policy as the specification states it. -/
theorem C8_tier_first_match_wins (filePath : String) (rules : List PriorityRule) :
    Dashboard.resolveTier filePath rules = tierFirstMatch filePath rules := by
  unfold Dashboard.resolveTier tierFirstMatch
  induction rules with
  | nil => simp [Dashboard.resolveTierLoop, List.find?]
  | cons r rest ih =>
    by_cases h : ((r.Extensions.isEmpty || r.Extensions.any (fun e => goExt filePath == e)) &&
        (r.Directories.isEmpty ||
          r.Directories.any (fun d => (goSplitSlash (goDir filePath)).any (fun q => q == d)))) = true
    · simp [Dashboard.resolveTierLoop, List.find?, h]
    · simp only [Bool.not_eq_true] at h
      simp [Dashboard.resolveTierLoop, List.find?, h, ih]

/-- C1 counterexample: after a data refresh (`SetData`, which rebuilds the
flat list) the conductor pane's cursor rests on a `SectionSpacer`, a
non-selectable item, although the list still contains selectable items —
the rebuild only clamps the cursor into range. -/
theorem C1_counterexample :
    Fixtures.condRefreshed.cursor = 1 ∧
    (listIdx? Fixtures.condRefreshed.flatItems Fixtures.condRefreshed.cursor).map
      (fun it => it.Kind) = some .SectionSpacer ∧
    Fixtures.condRefreshed.flatItems.any (fun it => it.Kind ≠ .SectionSpacer) = true := by
  decide

/-- C2 counterexample: `SetSize` records the new size without re-clamping,
so right after a resize the cursor lies below the visible window
(`cursor > scrollOffset + visibleHeight - 1`) on a non-empty list with
`visibleHeight ≥ 1`. -/
theorem C2_counterexample :
    Fixtures.dashResize.flatItems ≠ [] ∧
    1 ≤ Fixtures.dashResize.listHeight ∧
    ¬(Fixtures.dashResize.cursor ≤
        Fixtures.dashResize.scrollOffset + Fixtures.dashResize.listHeight - 1) := by
  decide

/-- C3 counterexample: a commit-detail completion for `c2` arriving while
the selection is `c3` is not discarded — the handler installs the stale
detail and records its hash, and the pane's displayed detail is `c2`'s. -/
theorem C3_counterexample :
    Fixtures.appOnC3.graphPane.SelectedHash = "c3" ∧
    Fixtures.appStaleApplied.graphPane.SelectedHash = "c3" ∧
    Fixtures.appStaleApplied.graphPane.detail = some Fixtures.detailC2 ∧
    Fixtures.appStaleApplied.graphPane.detailHash = "c2" ∧
    Fixtures.appStaleApplied.lastDetailHash = "c2" := by
  decide

/-- C4 counterexample: a resize that crosses the width-80 threshold makes
the conductor pane invisible but leaves `PanelFocus` pointing at it — the
window-size transition never re-evaluates focus. -/
theorem C4_counterexample :
    Fixtures.appConductorFocused.conductorVisible = true ∧
    Fixtures.appConductorFocused.focusPanel = .FocusConductor ∧
    Fixtures.appNarrowed.focusPanel = .FocusConductor ∧
    Fixtures.appNarrowed.conductorVisible = false := by
  decide

/-- C5 counterexample: the graph pane clears its per-file expansion state
on every `SetGraph` — a refresh delivering the identical graph data, with
the expanded file still present, resets the user's expand choice. -/
theorem C5_counterexample :
    mapGetD Fixtures.graphExpanded.fileExpanded "a.go" false = true ∧
    Fixtures.graphRefreshed.lines = Fixtures.graphExpanded.lines ∧
    Fixtures.graphRefreshed.detail = none ∧
    mapGetD Fixtures.graphRefreshed.fileExpanded "a.go" false = false := by
  decide

/-- C6 counterexample: after the rebuild (which ends in
`ensureCursorVisible`) that shrank the list below the viewport height, the
scroll offset stays at 2 — `ensureCursorVisible` is a fixed point of the
state yet the offset exceeds `max 0 (len(items) - visibleHeight) = 0`. -/
theorem C6_counterexample :
    Fixtures.dashShrunk.ensureCursorVisible = Fixtures.dashShrunk ∧
    (Fixtures.dashShrunk.flatItems.length : Int) < Fixtures.dashShrunk.listHeight ∧
    Fixtures.dashShrunk.scrollOffset = 2 ∧
    ¬(Fixtures.dashShrunk.scrollOffset ≤
        max 0 ((Fixtures.dashShrunk.flatItems.length : Int) - Fixtures.dashShrunk.listHeight)) := by
  decide

/-- C7 counterexample: with the cursor on the unstaged `src` FolderHeader,
toggling folder collapse twice does not restore the flat list — the first
toggle also hides the staged `src` files above the cursor, the cursor
lands on the `zz` FolderHeader, and the second toggle collapses that other
folder instead. -/
theorem C7_counterexample :
    (Fixtures.dashFolder.SelectedItem).map (fun it => (it.Kind, it.Dir)) =
      some (.FolderHeader, "src") ∧
    ((Fixtures.dashFolder.ToggleFolderCollapse).SelectedItem).map
      (fun it => (it.Kind, it.Dir)) = some (.FolderHeader, "zz") ∧
    ((Fixtures.dashFolder.ToggleFolderCollapse).ToggleFolderCollapse).flatItems ≠
      Fixtures.dashFolder.flatItems := by
  decide

/-- C10 counterexample: when the first `SetRepos` carries no repos the
collapse map stays empty, and the next `SetRepos` call does modify it —
contradicting "no later SetRepos call ever modifies the collapse map". -/
theorem C10_counterexample :
    Fixtures.dashEmptyFirst.collapsed = [] ∧
    Fixtures.dashEmptyThenOne.collapsed ≠ Fixtures.dashEmptyFirst.collapsed := by
  decide

/-! ### Shared lemmas about the dashboard cursor machinery -/

/-- `ensureCursorVisible` only writes `scrollOffset`. -/
theorem ensure_scrollOnly (m : Dashboard.Model) :
    m.ensureCursorVisible = { m with scrollOffset := (m.ensureCursorVisible).scrollOffset } := by
  unfold Dashboard.Model.ensureCursorVisible
  split_ifs <;> rfl

/-- The dashboard's visible height is at least one line. -/
theorem listHeight_pos (m : Dashboard.Model) : 1 ≤ m.listHeight := by
  unfold Dashboard.Model.listHeight
  split <;> omega

/-- The visible height only reads the recorded height, not the scroll
offset. -/
theorem listHeight_scroll (m : Dashboard.Model) (s : Int) :
    ({ m with scrollOffset := s } : Dashboard.Model).listHeight = m.listHeight := rfl

/-- The forward skip scan: starting in range it lands either one past the
end or on a selectable item, never moving backwards, whenever the fuel
exceeds the remaining distance (as the `length + 1` at the call sites
does). -/
theorem skipLoop_fwd_spec (items : List Dashboard.FlatItem) :
    ∀ (fuel : Nat) (c : Int), 0 ≤ c → c ≤ (items.length : Int) →
      (items.length : Int) < (fuel : Int) + c →
      c ≤ Dashboard.skipLoop items 1 fuel c ∧
      Dashboard.skipLoop items 1 fuel c ≤ (items.length : Int) ∧
      (Dashboard.skipLoop items 1 fuel c = (items.length : Int) ∨
        (Dashboard.skipLoop items 1 fuel c < (items.length : Int) ∧
         Dashboard.isNonSelectable (itemAt items (Dashboard.skipLoop items 1 fuel c)).Kind = false)) := by
  intro fuel
  induction fuel with
  | zero =>
    intro c h0 hle hf
    exfalso
    simp only [Nat.cast_zero] at hf
    omega
  | succ fuel ih =>
    intro c h0 hle hf
    rw [Dashboard.skipLoop]
    split_ifs with h
    · obtain ⟨-, hlt, -⟩ := h
      have := ih (c + 1) (by omega) (by omega) (by push_cast at hf ⊢; omega)
      refine ⟨by omega, this.2.1, this.2.2⟩
    · by_cases hend : c = (items.length : Int)
      · exact ⟨le_refl c, by omega, Or.inl hend⟩
      · have hlt : c < (items.length : Int) := lt_of_le_of_ne hle hend
        have hsel : Dashboard.isNonSelectable (itemAt items c).Kind = false := by
          rcases Bool.eq_false_or_eq_true (Dashboard.isNonSelectable (itemAt items c).Kind) with hb | hb
          · exact absurd ⟨h0, hlt, hb⟩ h
          · exact hb
        exact ⟨le_refl c, by omega, Or.inr ⟨hlt, hsel⟩⟩

/-- The backward skip scan: if the head of the list is selectable, a scan
starting in range lands, still in range, on a selectable item. -/
theorem skipLoop_bwd_spec (items : List Dashboard.FlatItem)
    (hhead : Dashboard.isNonSelectable (itemAt items 0).Kind = false) :
    ∀ (fuel : Nat) (c : Int), 0 ≤ c → c < (items.length : Int) →
      c < (fuel : Int) →
      0 ≤ Dashboard.skipLoop items (-1) fuel c ∧
      Dashboard.skipLoop items (-1) fuel c < (items.length : Int) ∧
      Dashboard.isNonSelectable (itemAt items (Dashboard.skipLoop items (-1) fuel c)).Kind = false := by
  intro fuel
  induction fuel with
  | zero =>
    intro c h0 hlt hf
    exfalso
    simp only [Nat.cast_zero] at hf
    omega
  | succ fuel ih =>
    intro c h0 hlt hf
    rw [Dashboard.skipLoop]
    split_ifs with h
    · obtain ⟨-, -, hns⟩ := h
      have hc0 : c ≠ 0 := by
        intro h0c
        rw [h0c] at hns
        rw [hns] at hhead
        exact Bool.true_eq_false.mp hhead
      have := ih (c - 1) (by omega) (by omega) (by push_cast at hf ⊢; omega)
      simpa using this
    · have hsel : Dashboard.isNonSelectable (itemAt items c).Kind = false := by
        rcases Bool.eq_false_or_eq_true (Dashboard.isNonSelectable (itemAt items c).Kind) with hb | hb
        · exact absurd ⟨h0, hlt, hb⟩ h
        · exact hb
      exact ⟨h0, hlt, hsel⟩

/-- dashboard skipNonSelectable lands in range on a selectable item, for
either direction, whenever the list's head is selectable and the start
cursor is in range. -/
theorem skipNonSelectable_spec (items : List Dashboard.FlatItem) (c dir : Int)
    (hne : items ≠ []) (hhead : Dashboard.isNonSelectable (itemAt items 0).Kind = false)
    (h0 : 0 ≤ c) (hlt : c < (items.length : Int)) (hdir : dir = 1 ∨ dir = -1) :
    0 ≤ Dashboard.skipNonSelectable items c dir ∧
    Dashboard.skipNonSelectable items c dir < (items.length : Int) ∧
    Dashboard.isNonSelectable
      (itemAt items (Dashboard.skipNonSelectable items c dir)).Kind = false := by
  have hlen : items.length ≠ 0 := by
    simpa [List.length_eq_zero] using hne
  have hlen1 : 1 ≤ (items.length : Int) := by omega
  unfold Dashboard.skipNonSelectable
  rw [if_neg hlen]
  rcases hdir with hd | hd
  · subst hd
    have A := skipLoop_fwd_spec items (items.length + 1) c h0 (by omega) (by push_cast; omega)
    rcases A.2.2 with hA | hA
    · rw [hA]
      simp only [ge_iff_le, le_refl, if_pos]
      have B := skipLoop_bwd_spec items hhead (items.length + 1) ((items.length : Int) - 1)
        (by omega) (by omega) (by push_cast; omega)
      rcases B with ⟨hB0, hB1, hB2⟩
      rw [if_neg (by omega)]
      exact ⟨hB0, hB1, hB2⟩
    · rcases hA with ⟨hA1, hA2⟩
      rw [if_neg (by omega), if_neg (by omega)]
      exact ⟨by omega, hA1, hA2⟩
  · subst hd
    have B := skipLoop_bwd_spec items hhead (items.length + 1) c h0 hlt (by push_cast; omega)
    rcases B with ⟨hB0, hB1, hB2⟩
    rw [if_neg (by omega), if_neg (by omega)]
    exact ⟨hB0, hB1, hB2⟩

/-- `ensureCursorVisible` neither moves the cursor nor changes the list,
so it preserves the I1 invariant. -/
theorem selInv_ensure (m : Dashboard.Model) (h : SelInv m) : SelInv m.ensureCursorVisible := by
  rw [ensure_scrollOnly]
  exact h

/-- The repo loop of the dashboard builder keeps the flat list
head-selectable: every appended block opens with a RepoHeader. -/
theorem repoStep_fold_headSel (repos : List RepoStatus) (display : DisplayConfig)
    (rules : List PriorityRule) (col docsCol : Int → Bool)
    (folderCol : Int → String → Bool) (pj : Int) :
    ∀ (l : List Int) (acc : List Dashboard.FlatItem × List Int), HeadSel acc.1 →
      HeadSel (l.foldl (Dashboard.repoStep repos display rules col docsCol folderCol pj) acc).1 := by
  intro l
  induction l with
  | nil => intro acc h; exact h
  | cons ri rest ih =>
    intro acc h
    rw [List.foldl_cons]
    apply ih
    unfold Dashboard.repoStep
    cases hidx : listIdx? repos ri with
    | none => exact h
    | some repo =>
      dsimp only
      right
      rcases h with hnil | hsel
      · rw [hnil]
        simp [itemAt, listIdx?, Dashboard.isNonSelectable]
      · cases hacc : acc.1 with
        | nil => simp [itemAt, listIdx?, Dashboard.isNonSelectable]
        | cons x xs =>
          rw [hacc] at hsel
          simpa [itemAt, listIdx?] using hsel

/-- Whatever the data, mode and collapse state, the dashboard builder's
flat list is head-selectable. -/
theorem buildDash_headSel (repos : List RepoStatus) (projects : List ProjectConfig)
    (activeProject : Int) (display : DisplayConfig) (rules : List PriorityRule)
    (col docsCol : Int → Bool) (folderCol : Int → String → Bool) :
    HeadSel (Dashboard.buildDash repos projects activeProject display rules
      col docsCol folderCol).1 := by
  unfold Dashboard.buildDash
  split_ifs with h
  · cases projects with
    | nil => simp at h
    | cons p ps =>
      right
      simp [itemAt, listIdx?, Dashboard.isNonSelectable]
  · exact repoStep_fold_headSel repos display rules col docsCol folderCol _ _ ([], [])
      (Or.inl rfl)
  · exact repoStep_fold_headSel repos display rules col docsCol folderCol _ _ ([], [])
      (Or.inl rfl)

/-- dashboard rebuildFlatItems establishes I1: on an empty result the
cursor is 0, and otherwise the clamp lands the cursor in range and the
forward skip (with its reverse fallback) lands it on a selectable item. -/
theorem rebuild_selInv (m : Dashboard.Model) : SelInv m.rebuildFlatItems := by
  have hhead := buildDash_headSel m.repos m.projects m.activeProject m.display
    m.priorityRules m.isCollapsed m.isDocsCollapsed m.isFolderCollapsed
  unfold Dashboard.Model.rebuildFlatItems
  dsimp only
  apply selInv_ensure
  by_cases hnil : (Dashboard.buildDash m.repos m.projects m.activeProject m.display
      m.priorityRules m.isCollapsed m.isDocsCollapsed m.isFolderCollapsed).1 = []
  · left
    refine ⟨hnil, ?_⟩
    rw [hnil] at hhead ⊢
    show Dashboard.skipNonSelectable [] _ 1 = 0
    unfold Dashboard.skipNonSelectable
    simp only [List.length_nil, if_pos]
    split_ifs <;> omega
  · have hsel : Dashboard.isNonSelectable (itemAt (Dashboard.buildDash m.repos m.projects
        m.activeProject m.display m.priorityRules m.isCollapsed m.isDocsCollapsed
        m.isFolderCollapsed).1 0).Kind = false := by
      rcases hhead with h | h
      · exact absurd h hnil
      · exact h
    have hlen : 1 ≤ ((Dashboard.buildDash m.repos m.projects m.activeProject m.display
        m.priorityRules m.isCollapsed m.isDocsCollapsed m.isFolderCollapsed).1.length : Int) := by
      have := List.length_pos.mpr hnil
      omega
    right
    refine ⟨hsel, ?_⟩
    have hspec := skipNonSelectable_spec _
      (if (if m.cursor ≥ ((Dashboard.buildDash m.repos m.projects m.activeProject m.display
          m.priorityRules m.isCollapsed m.isDocsCollapsed m.isFolderCollapsed).1.length : Int)
        then ((Dashboard.buildDash m.repos m.projects m.activeProject m.display
          m.priorityRules m.isCollapsed m.isDocsCollapsed m.isFolderCollapsed).1.length : Int) - 1
        else m.cursor) < 0 then 0
       else (if m.cursor ≥ ((Dashboard.buildDash m.repos m.projects m.activeProject m.display
          m.priorityRules m.isCollapsed m.isDocsCollapsed m.isFolderCollapsed).1.length : Int)
        then ((Dashboard.buildDash m.repos m.projects m.activeProject m.display
          m.priorityRules m.isCollapsed m.isDocsCollapsed m.isFolderCollapsed).1.length : Int) - 1
        else m.cursor)) 1
      hnil hsel (by split_ifs <;> omega) (by split_ifs <;> omega) (Or.inl rfl)
    exact hspec

/-- The dashboard cursor moves preserve I1 (the list is untouched; the
skip scans land on selectable items by `skipNonSelectable_spec`). -/
theorem move_selInv (m : Dashboard.Model) (h : SelInv m) :
    SelInv m.MoveDown ∧ SelInv m.MoveUp := by
  rcases h with ⟨hnil, hcur⟩ | ⟨hhead, h0, hlt, hsel⟩
  · constructor
    · unfold Dashboard.Model.MoveDown
      rw [if_neg (by rw [hnil, hcur]; simp)]
      exact Or.inl ⟨hnil, hcur⟩
    · unfold Dashboard.Model.MoveUp
      rw [if_neg (by rw [hcur]; omega)]
      exact Or.inl ⟨hnil, hcur⟩
  · have hne : m.flatItems ≠ [] := by
      intro hfi
      rw [hfi] at hlt
      simp at hlt
      omega
    constructor
    · unfold Dashboard.Model.MoveDown
      split_ifs with hcond
      · apply selInv_ensure
        right
        refine ⟨hhead, ?_⟩
        exact skipNonSelectable_spec m.flatItems (m.cursor + 1) 1 hne hhead
          (by omega) (by omega) (Or.inl rfl)
      · exact Or.inr ⟨hhead, h0, hlt, hsel⟩
    · unfold Dashboard.Model.MoveUp
      split_ifs with hcond
      · apply selInv_ensure
        right
        refine ⟨hhead, ?_⟩
        exact skipNonSelectable_spec m.flatItems (m.cursor - 1) (-1) hne hhead
          (by omega) (by omega) (Or.inr rfl)
      · exact Or.inr ⟨hhead, h0, hlt, hsel⟩

/-- A move sequence preserves the I1 invariant. -/
theorem applyDashMoves_selInv (moves : List DashMove) :
    ∀ (m : Dashboard.Model), SelInv m → SelInv (applyDashMoves m moves) := by
  induction moves with
  | nil => intro m h; exact h
  | cons mv rest ih =>
    intro m h
    show SelInv ((mv :: rest).foldl _ m)
    rw [List.foldl_cons]
    cases mv
    · exact ih _ (move_selInv m h).1
    · exact ih _ (move_selInv m h).2

/-- C1 (amended): on the dashboard panel, after a `SetRepos` rebuild and
any sequence of MoveDown/MoveUp, either the list is empty and the cursor
is 0, or the cursor rests on a selectable item. (As the claim stated it —
over arbitrary well-formed lists and covering every panel's rebuild — the
property fails: the conductor pane's rebuild only clamps the cursor and
can leave it on a spacer, see the counterexample; the dashboard's own
lists are always head-selectable, which is what the skip scan needs.) -/
theorem C1_amended (m : Dashboard.Model) (repos : List RepoStatus)
    (moves : List DashMove) :
    ((applyDashMoves (m.SetRepos repos) moves).flatItems = [] ∧
      (applyDashMoves (m.SetRepos repos) moves).cursor = 0) ∨
    SelOk (applyDashMoves (m.SetRepos repos) moves) := by
  have hstart : SelInv (m.SetRepos repos) := by
    unfold Dashboard.Model.SetRepos
    exact rebuild_selInv _
  have hall := applyDashMoves_selInv moves _ hstart
  rcases hall with ⟨h1, h2⟩ | ⟨-, h⟩
  · exact Or.inl ⟨h1, h2⟩
  · exact Or.inr h

/-- `ensureCursorVisible` establishes I2 from any state: each branch puts
the cursor inside the window of `listHeight ≥ 1` lines. -/
theorem ensure_I2 (m : Dashboard.Model) : I2 m.ensureCursorVisible := by
  have hh := listHeight_pos m
  unfold I2 Dashboard.Model.ensureCursorVisible
  split_ifs with h1 h2 <;> refine ⟨?_, ?_⟩ <;>
    (try simp only [listHeight_scroll]) <;> omega

/-- dashboard rebuildFlatItems ends in `ensureCursorVisible`, so it
establishes I2. -/
theorem rebuild_I2 (m : Dashboard.Model) : I2 m.rebuildFlatItems := by
  unfold Dashboard.Model.rebuildFlatItems
  exact ensure_I2 _

/-- The dashboard cursor moves re-establish I2 in their active branch and
leave the state untouched otherwise. -/
theorem move_I2 (m : Dashboard.Model) (h : I2 m) : I2 m.MoveDown ∧ I2 m.MoveUp := by
  constructor
  · unfold Dashboard.Model.MoveDown
    split_ifs
    · exact ensure_I2 _
    · exact h
  · unfold Dashboard.Model.MoveUp
    split_ifs
    · exact ensure_I2 _
    · exact h

/-- A move sequence preserves I2. -/
theorem applyDashMoves_I2 (moves : List DashMove) :
    ∀ (m : Dashboard.Model), I2 m → I2 (applyDashMoves m moves) := by
  induction moves with
  | nil => intro m h; exact h
  | cons mv rest ih =>
    intro m h
    show I2 ((mv :: rest).foldl _ m)
    rw [List.foldl_cons]
    cases mv
    · exact ih _ (move_I2 m h).1
    · exact ih _ (move_I2 m h).2

/-- C2 (amended): after a `SetRepos` rebuild and any sequence of cursor
moves, `scrollOffset ≤ cursor ≤ scrollOffset + visibleHeight - 1` holds
with the panel's own visible height (which is at least 1). As the claim
stated it — with resizes in the sequence — the property fails:
`SetSize` records the size without re-clamping, see the counterexample. -/
theorem C2_amended (m : Dashboard.Model) (repos : List RepoStatus)
    (moves : List DashMove) :
    I2 (applyDashMoves (m.SetRepos repos) moves) := by
  apply applyDashMoves_I2
  unfold Dashboard.Model.SetRepos
  exact rebuild_I2 _

/-- C6 (amended): `ensureCursorVisible` leaves the cursor and list alone,
restores I2, and its scroll adjustment is the minimal shift among all
offsets that satisfy I2 for this cursor. It does not, however, clamp the
offset to `len(items) - visibleHeight`: on a list shorter than the
viewport the offset can stay positive (see the counterexample), so the
claim's bound `scrollOffset ≤ max 0 (len - visibleHeight)` does not hold. -/
theorem C6_amended (m : Dashboard.Model) :
    (m.ensureCursorVisible).cursor = m.cursor ∧
    (m.ensureCursorVisible).flatItems = m.flatItems ∧
    I2 m.ensureCursorVisible ∧
    (∀ s : Int, s ≤ m.cursor → m.cursor ≤ s + m.listHeight - 1 →
      ((m.ensureCursorVisible).scrollOffset - m.scrollOffset).natAbs ≤
        (s - m.scrollOffset).natAbs) := by
  have hh := listHeight_pos m
  refine ⟨?_, ?_, ensure_I2 m, ?_⟩
  · rw [ensure_scrollOnly]
  · rw [ensure_scrollOnly]
  · intro s hs1 hs2
    unfold Dashboard.Model.ensureCursorVisible
    split_ifs <;> (try simp only [listHeight_scroll]) <;> omega

/-- C3 (amended): a commit-detail completion with no error is applied
unconditionally — the graph pane's detail and hash become the message's,
and `lastDetailHash` records it, with no comparison against the current
selection. "Last response wins" rather than "stale responses dropped". -/
theorem C3_amended (a : App.State) (msg : App.CommitDetailFetchedMsg)
    (h : msg.Err = none) :
    (a.updateCommitDetailFetched msg).graphPane.detail = some msg.Detail ∧
    (a.updateCommitDetailFetched msg).graphPane.detailHash = msg.Detail.Hash ∧
    (a.updateCommitDetailFetched msg).lastDetailHash = msg.Hash := by
  unfold App.State.updateCommitDetailFetched
  rw [if_pos h]
  exact ⟨rfl, rfl, rfl⟩

/-- Witness for C3 (amended): the stale `c2` message applied on the state
selecting `c3`. -/
theorem C3_amended_witness :
    (Fixtures.appOnC3.updateCommitDetailFetched
        { Detail := Fixtures.detailC2, RepoPath := "/repo", Hash := "c2" }).graphPane.detail =
      some Fixtures.detailC2 ∧
    (Fixtures.appOnC3.updateCommitDetailFetched
        { Detail := Fixtures.detailC2, RepoPath := "/repo", Hash := "c2" }).graphPane.detailHash =
      Fixtures.detailC2.Hash ∧
    (Fixtures.appOnC3.updateCommitDetailFetched
        { Detail := Fixtures.detailC2, RepoPath := "/repo", Hash := "c2" }).lastDetailHash = "c2" :=
  C3_amended Fixtures.appOnC3 { Detail := Fixtures.detailC2, RepoPath := "/repo", Hash := "c2" } rfl

/-! ### Rebuilds do not touch the collapse maps or the source data -/

/-- dashboard rebuildFlatItems writes only the flat list, the header
index, the cursor and the scroll offset. -/
theorem rebuild_data (m : Dashboard.Model) :
    (m.rebuildFlatItems).repos = m.repos ∧
    (m.rebuildFlatItems).projects = m.projects ∧
    (m.rebuildFlatItems).activeProject = m.activeProject ∧
    (m.rebuildFlatItems).display = m.display ∧
    (m.rebuildFlatItems).priorityRules = m.priorityRules ∧
    (m.rebuildFlatItems).collapsed = m.collapsed ∧
    (m.rebuildFlatItems).docsCollapsed = m.docsCollapsed ∧
    (m.rebuildFlatItems).foldersCollapsed = m.foldersCollapsed := by
  unfold Dashboard.Model.rebuildFlatItems
  rw [ensure_scrollOnly]
  exact ⟨rfl, rfl, rfl, rfl, rfl, rfl, rfl, rfl⟩

/-- The flat list a dashboard rebuild leaves behind is the builder's
output on the model's own data and collapse lookups. -/
theorem rebuild_flatItems (m : Dashboard.Model) :
    (m.rebuildFlatItems).flatItems = (Dashboard.buildDash m.repos m.projects
      m.activeProject m.display m.priorityRules m.isCollapsed m.isDocsCollapsed
      m.isFolderCollapsed).1 := by
  unfold Dashboard.Model.rebuildFlatItems
  rw [ensure_scrollOnly]

/-- On a non-empty collapse map, `SetRepos` leaves all three collapse maps
untouched (the auto-collapse branch is skipped and the rebuild writes no
map). -/
theorem setRepos_maps (m : Dashboard.Model) (repos : List RepoStatus)
    (hne : m.collapsed ≠ []) :
    (m.SetRepos repos).collapsed = m.collapsed ∧
    (m.SetRepos repos).docsCollapsed = m.docsCollapsed ∧
    (m.SetRepos repos).foldersCollapsed = m.foldersCollapsed := by
  have hni : m.collapsed.isEmpty = false := by
    cases h : m.collapsed
    · exact absurd h hne
    · rfl
  unfold Dashboard.Model.SetRepos
  simp only [hni, Bool.false_eq_true, if_false]
  exact ⟨(rebuild_data _).2.2.2.2.2.1, (rebuild_data _).2.2.2.2.2.2.1,
    (rebuild_data _).2.2.2.2.2.2.2⟩

/-- conductorpane SetData rebuilds the list but leaves the collapse map
untouched. -/
theorem setData_collapsed (cm : Conductorpane.Model) (d : Option ConductorData) :
    (cm.SetData d).collapsed = cm.collapsed := by
  unfold Conductorpane.Model.SetData Conductorpane.Model.rebuildFlatItems
  rfl

/-- C5 (amended): the dashboard's collapse state (repo, docs and folder
maps, keyed by repo index and by repo-index:directory) and the conductor
pane's collapse state (keyed by section kind) survive every data-refresh
rebuild. As the claim stated it — covering the graph pane too — the
property fails: `SetGraph` clears the per-file expansion map on every
refresh, see the counterexample. -/
theorem C5_amended :
    (∀ (m : Dashboard.Model) (repos : List RepoStatus), m.collapsed ≠ [] →
      (m.SetRepos repos).collapsed = m.collapsed ∧
      (m.SetRepos repos).docsCollapsed = m.docsCollapsed ∧
      (m.SetRepos repos).foldersCollapsed = m.foldersCollapsed) ∧
    (∀ (cm : Conductorpane.Model) (d : Option ConductorData),
      (cm.SetData d).collapsed = cm.collapsed) :=
  ⟨setRepos_maps, setData_collapsed⟩

/-- Witness for C5 (amended): a dashboard refresh after the first load,
and a conductor refresh, both preserve their collapse maps. -/
theorem C5_amended_witness :
    ((Fixtures.dashEmptyThenOne.SetRepos (Fixtures.plainRepos 2)).collapsed =
        Fixtures.dashEmptyThenOne.collapsed ∧
      (Fixtures.dashEmptyThenOne.SetRepos (Fixtures.plainRepos 2)).docsCollapsed =
        Fixtures.dashEmptyThenOne.docsCollapsed ∧
      (Fixtures.dashEmptyThenOne.SetRepos (Fixtures.plainRepos 2)).foldersCollapsed =
        Fixtures.dashEmptyThenOne.foldersCollapsed) ∧
    ((Conductorpane.New.SetData (some Fixtures.condData1)).collapsed =
      Conductorpane.New.collapsed) :=
  ⟨C5_amended.1 Fixtures.dashEmptyThenOne (Fixtures.plainRepos 2) (by decide),
   C5_amended.2 Conductorpane.New (some Fixtures.condData1)⟩

/-! ### The first-load auto-collapse of SetRepos -/

/-- An index lookup that succeeds was in range. -/
theorem listIdx?_some_bounds (l : List α) (i : Int) (x : α)
    (h : listIdx? l i = some x) : 0 ≤ i ∧ i < (l.length : Int) := by
  unfold listIdx? at h
  split_ifs at h with h1
  constructor
  · omega
  · by_contra hge
    rw [List.get?_eq_none.mpr (by omega)] at h
    exact Option.noConfusion h

/-- `mapSet` never produces an empty map. -/
theorem mapSet_ne_nil [DecidableEq κ] (l : List (κ × ν)) (k : κ) (v : ν) :
    mapSet l k v ≠ [] := by
  cases l with
  | nil => simp [mapSet]
  | cons p rest =>
    unfold mapSet
    split_ifs <;> simp

/-- The auto-collapse fold of `SetRepos` yields a non-empty map whenever
it has keys or starts non-empty. -/
theorem foldl_mapSet_ne_nil (keys : List Nat) :
    ∀ (l : List (Int × Bool)), l ≠ [] ∨ keys ≠ [] →
      keys.foldl (fun acc (i : Nat) => mapSet acc (i : Int) true) l ≠ [] := by
  induction keys with
  | nil =>
    intro l h
    rcases h with h | h
    · exact h
    · exact absurd rfl h
  | cons k0 ks ih =>
    intro l h
    rw [List.foldl_cons]
    exact ih _ (Or.inl (mapSet_ne_nil _ _ _))

/-- After the auto-collapse fold, every key among the written ones (and
every key that was already true) reads true. -/
theorem mapGetD_setAll_true (keys : List Nat) :
    ∀ (l : List (Int × Bool)) (k : Int),
      ((∃ i ∈ keys, (i : Int) = k) ∨ mapGetD l k false = true) →
      mapGetD (keys.foldl (fun acc (i : Nat) => mapSet acc (i : Int) true) l) k false = true := by
  induction keys with
  | nil =>
    intro l k h
    rcases h with ⟨i, hmem, -⟩ | hval
    · exact absurd hmem (List.not_mem_nil i)
    · exact hval
  | cons k0 ks ih =>
    intro l k h
    rw [List.foldl_cons]
    apply ih
    by_cases hk : k = (k0 : Int)
    · right
      subst hk
      simp [mapGetD, mapGet?_set_self]
    · rcases h with ⟨i, hmem, hcast⟩ | hval
      · rcases List.mem_cons.mp hmem with h1 | h2
        · exact absurd (h1 ▸ hcast.symm) hk
        · exact Or.inl ⟨i, h2, hcast⟩
      · right
        unfold mapGetD
        rw [mapGet?_set_other _ _ _ _ hk]
        exact hval

/-- The repo loop emits only repo headers when every repo in range is
collapsed. -/
theorem repoStep_fold_allHeaders (repos : List RepoStatus) (display : DisplayConfig)
    (rules : List PriorityRule) (col docsCol : Int → Bool)
    (folderCol : Int → String → Bool) (pj : Int)
    (hcol : ∀ ri : Int, 0 ≤ ri → ri < (repos.length : Int) → col ri = true) :
    ∀ (l : List Int) (acc : List Dashboard.FlatItem × List Int),
      acc.1.all (fun it => it.Kind == .RepoHeader) = true →
      ((l.foldl (Dashboard.repoStep repos display rules col docsCol folderCol pj) acc).1.all
        (fun it => it.Kind == .RepoHeader)) = true := by
  intro l
  induction l with
  | nil => intro acc h; exact h
  | cons ri rest ih =>
    intro acc h
    rw [List.foldl_cons]
    apply ih
    unfold Dashboard.repoStep
    cases hidx : listIdx? repos ri with
    | none => exact h
    | some repo =>
      dsimp only
      have hb := listIdx?_some_bounds repos ri repo hidx
      rw [if_pos (Or.inr (hcol ri hb.1 hb.2))]
      rw [List.all_append]
      rw [h]
      rfl

/-- The flat list after a first-load `SetRepos` on a fresh model, in terms
of the builder over the auto-collapsed map and the empty docs/folder maps. -/
theorem setRepos_fresh_flatItems (rules : List PriorityRule) (disp : DisplayConfig)
    (repos : List RepoStatus) :
    ((Dashboard.New rules disp).SetRepos repos).flatItems =
      (Dashboard.buildDash repos [] (-1) disp rules
        (fun ri => mapGetD ((List.range repos.length).foldl
          (fun acc (i : Nat) => mapSet acc (i : Int) true) []) ri false)
        (fun ri => (mapGet? ([] : List (Int × Bool)) ri).getD true)
        (fun ri dir => mapGetD ([] : List (String × Bool))
          (Dashboard.folderKey ri dir) false)).1 :=
  rebuild_flatItems
    { Dashboard.New rules disp with
      repos := repos,
      collapsed := (if (Dashboard.New rules disp).collapsed.isEmpty then
          (List.range repos.length).foldl
            (fun acc (i : Nat) => mapSet acc (i : Int) true)
            (Dashboard.New rules disp).collapsed
        else (Dashboard.New rules disp).collapsed) }

/-- C10 (amended): a `SetRepos` call collapses every repository exactly
when it finds the collapse map empty, and leaves the map untouched
otherwise; hence after a first load with at least one repo the map is
non-empty, every repo reads collapsed, the dashboard (no projects
configured) shows only repo headers — and later calls never modify the
map. As the claim stated it — "no later SetRepos call ever modifies the
collapse map" — the property fails when the first call carried an empty
repo list, see the counterexample. -/
theorem C10_amended :
    (∀ (m : Dashboard.Model) (repos : List RepoStatus), m.collapsed ≠ [] →
      (m.SetRepos repos).collapsed = m.collapsed) ∧
    (∀ (rules : List PriorityRule) (disp : DisplayConfig) (repos : List RepoStatus),
      repos ≠ [] →
      ((Dashboard.New rules disp).SetRepos repos).collapsed ≠ [] ∧
      (∀ i : Nat, i < repos.length →
        ((Dashboard.New rules disp).SetRepos repos).isCollapsed (i : Int) = true) ∧
      (((Dashboard.New rules disp).SetRepos repos).flatItems.all
        (fun it => it.Kind == .RepoHeader)) = true) := by
  constructor
  · intro m repos hne
    exact (setRepos_maps m repos hne).1
  · intro rules disp repos hne
    have hkeys : List.range repos.length ≠ [] := by
      have : repos.length ≠ 0 := by
        simpa [List.length_eq_zero] using hne
      simpa [List.range_eq_nil] using this
    have hauto : ((Dashboard.New rules disp).SetRepos repos).collapsed =
        (List.range repos.length).foldl
          (fun acc (i : Nat) => mapSet acc (i : Int) true) [] :=
      (rebuild_data
        { Dashboard.New rules disp with
          repos := repos,
          collapsed := (if (Dashboard.New rules disp).collapsed.isEmpty then
              (List.range repos.length).foldl
                (fun acc (i : Nat) => mapSet acc (i : Int) true)
                (Dashboard.New rules disp).collapsed
            else (Dashboard.New rules disp).collapsed) }).2.2.2.2.2.1
    have hcol : ∀ ri : Int, 0 ≤ ri → ri < (repos.length : Int) →
        ((Dashboard.New rules disp).SetRepos repos).isCollapsed ri = true := by
      intro ri h0 hlt
      unfold Dashboard.Model.isCollapsed
      rw [hauto]
      apply mapGetD_setAll_true
      left
      exact ⟨ri.toNat, List.mem_range.mpr (by omega), by omega⟩
    refine ⟨?_, ?_, ?_⟩
    · rw [hauto]
      exact foldl_mapSet_ne_nil _ _ (Or.inr hkeys)
    · intro i hi
      exact hcol (i : Int) (by omega) (by omega)
    · rw [setRepos_fresh_flatItems]
      unfold Dashboard.buildDash
      rw [if_neg (by simp), if_neg (by omega)]
      dsimp only
      apply repoStep_fold_allHeaders
      · intro ri h0 hlt
        apply mapGetD_setAll_true
        left
        exact ⟨ri.toNat, List.mem_range.mpr (by omega), by omega⟩
      · rfl

/-! ### Collapse-toggle idempotence -/

/-- Rebuilding a model whose data agrees with a consistent state and whose
collapse lookups agree pointwise reproduces that state's flat list. -/
theorem dashboard_restore (m m2 : Dashboard.Model)
    (hrepos : m2.repos = m.repos) (hproj : m2.projects = m.projects)
    (hact : m2.activeProject = m.activeProject) (hdisp : m2.display = m.display)
    (hrules : m2.priorityRules = m.priorityRules)
    (hcol : ∀ ri, m2.isCollapsed ri = m.isCollapsed ri)
    (hdocs : ∀ ri, m2.isDocsCollapsed ri = m.isDocsCollapsed ri)
    (hfold : ∀ ri dir, m2.isFolderCollapsed ri dir = m.isFolderCollapsed ri dir)
    (hcons : DashConsistent m) :
    (m2.rebuildFlatItems).flatItems = m.flatItems := by
  rw [rebuild_flatItems m2, hrepos, hproj, hact, hdisp, hrules,
      show m2.isCollapsed = m.isCollapsed from funext hcol,
      show m2.isDocsCollapsed = m.isDocsCollapsed from funext hdocs,
      show m2.isFolderCollapsed = m.isFolderCollapsed from
        funext fun ri => funext (hfold ri)]
  exact hcons.symm

/-- conductorpane rebuildFlatItems writes only the flat list and cursor. -/
theorem cond_rebuild_data (cm : Conductorpane.Model) :
    (cm.rebuildFlatItems).data = cm.data ∧
    (cm.rebuildFlatItems).collapsed = cm.collapsed :=
  ⟨rfl, rfl⟩

/-- The flat list a conductor rebuild leaves behind is the builder's
output on the model's data and collapse lookup. -/
theorem cond_rebuild_flatItems (cm : Conductorpane.Model) :
    (cm.rebuildFlatItems).flatItems = Conductorpane.buildCond cm.data cm.isCollapsed :=
  rfl

/-- Conductor counterpart of `dashboard_restore`. -/
theorem conductor_restore (cm m2 : Conductorpane.Model)
    (hdata : m2.data = cm.data)
    (hcol : ∀ k, m2.isCollapsed k = cm.isCollapsed k)
    (hcons : CondConsistent cm) :
    (m2.rebuildFlatItems).flatItems = cm.flatItems := by
  rw [cond_rebuild_flatItems, hdata,
      show m2.isCollapsed = cm.isCollapsed from funext hcol]
  exact hcons.symm

/-- Equation for ToggleCollapse when an item is selected. -/
theorem toggleCollapse_eq (m : Dashboard.Model) (it : Dashboard.FlatItem)
    (hsel : m.SelectedItem = some it) :
    m.ToggleCollapse = Dashboard.Model.rebuildFlatItems
      { m with collapsed := (Gitdash.mapSet m.collapsed it.RepoIndex
          (!(Gitdash.mapGetD m.collapsed it.RepoIndex false))) } := by
  unfold Dashboard.Model.ToggleCollapse
  rw [hsel]

/-- Equation for ToggleDocsCollapse when a DocHeader is selected. -/
theorem toggleDocs_eq (m : Dashboard.Model) (it : Dashboard.FlatItem)
    (hsel : m.SelectedItem = some it) (hdoc : it.Kind = .DocHeader) :
    m.ToggleDocsCollapse = Dashboard.Model.rebuildFlatItems
      { m with docsCollapsed := (Gitdash.mapSet m.docsCollapsed it.RepoIndex
          (!(m.isDocsCollapsed it.RepoIndex))) } := by
  unfold Dashboard.Model.ToggleDocsCollapse
  rw [hsel]
  dsimp only
  rw [if_pos hdoc]

/-- Equation for ToggleFolderCollapse when a FolderHeader is selected. -/
theorem toggleFolder_eq (m : Dashboard.Model) (it : Dashboard.FlatItem)
    (hsel : m.SelectedItem = some it) (hfold : it.Kind = .FolderHeader) :
    m.ToggleFolderCollapse = Dashboard.Model.rebuildFlatItems
      { m with foldersCollapsed := (Gitdash.mapSet m.foldersCollapsed
          (Dashboard.folderKey it.RepoIndex it.Dir)
          (!(Gitdash.mapGetD m.foldersCollapsed
            (Dashboard.folderKey it.RepoIndex it.Dir) false))) } := by
  unfold Dashboard.Model.ToggleFolderCollapse
  rw [hsel]
  dsimp only
  rw [if_pos hfold]

/-- Equation for conductorpane ToggleCollapse on a header under the cursor. -/
theorem condToggle_eq (cm : Conductorpane.Model)
    (hguard : ¬(cm.flatItems.length = 0 ∨ cm.cursor < 0 ∨
      cm.cursor ≥ (cm.flatItems.length : Int)))
    (hhdr : Conductorpane.isHeader (itemAt cm.flatItems cm.cursor).Kind = true) :
    cm.ToggleCollapse = Conductorpane.Model.rebuildFlatItems
      { cm with collapsed := (Gitdash.mapSet cm.collapsed
          (itemAt cm.flatItems cm.cursor).Kind
          (!(Gitdash.mapGetD cm.collapsed (itemAt cm.flatItems cm.cursor).Kind false))) } := by
  unfold Conductorpane.Model.ToggleCollapse
  rw [if_neg hguard, if_pos hhdr]

/-- C7 (amended): toggling a node's collapse twice restores the FlatItem
sequence, provided the item under the cursor after the first toggle
carries the same collapse key as the toggled node — the same repo index
for repo collapse and docs collapse, the same `folderKey` for folder
collapse, and the same header kind in the conductor pane. (Without that
proviso the claim fails for folder headers: collapsing a folder that also
exists in an earlier section removes items before the cursor, the cursor
lands on a different folder header, and the second toggle collapses that
other folder — see the counterexample.) -/
theorem C7_amended :
    (∀ (m : Dashboard.Model) (it it2 : Dashboard.FlatItem),
      DashConsistent m →
      m.SelectedItem = some it →
      (m.ToggleCollapse).SelectedItem = some it2 →
      it2.RepoIndex = it.RepoIndex →
      ((m.ToggleCollapse).ToggleCollapse).flatItems = m.flatItems) ∧
    (∀ (m : Dashboard.Model) (it it2 : Dashboard.FlatItem),
      DashConsistent m →
      m.SelectedItem = some it → it.Kind = .DocHeader →
      (m.ToggleDocsCollapse).SelectedItem = some it2 → it2.Kind = .DocHeader →
      it2.RepoIndex = it.RepoIndex →
      ((m.ToggleDocsCollapse).ToggleDocsCollapse).flatItems = m.flatItems) ∧
    (∀ (m : Dashboard.Model) (it it2 : Dashboard.FlatItem),
      DashConsistent m →
      m.SelectedItem = some it → it.Kind = .FolderHeader →
      (m.ToggleFolderCollapse).SelectedItem = some it2 → it2.Kind = .FolderHeader →
      Dashboard.folderKey it2.RepoIndex it2.Dir = Dashboard.folderKey it.RepoIndex it.Dir →
      ((m.ToggleFolderCollapse).ToggleFolderCollapse).flatItems = m.flatItems) ∧
    (∀ (cm : Conductorpane.Model),
      CondConsistent cm →
      ¬(cm.flatItems.length = 0 ∨ cm.cursor < 0 ∨
        cm.cursor ≥ (cm.flatItems.length : Int)) →
      Conductorpane.isHeader (itemAt cm.flatItems cm.cursor).Kind = true →
      ¬((cm.ToggleCollapse).flatItems.length = 0 ∨ (cm.ToggleCollapse).cursor < 0 ∨
        (cm.ToggleCollapse).cursor ≥ ((cm.ToggleCollapse).flatItems.length : Int)) →
      Conductorpane.isHeader
        (itemAt (cm.ToggleCollapse).flatItems (cm.ToggleCollapse).cursor).Kind = true →
      (itemAt (cm.ToggleCollapse).flatItems (cm.ToggleCollapse).cursor).Kind =
        (itemAt cm.flatItems cm.cursor).Kind →
      ((cm.ToggleCollapse).ToggleCollapse).flatItems = cm.flatItems) := by
  refine ⟨?_, ?_, ?_, ?_⟩
  · -- repo collapse
    intro m it it2 hcons hsel hsel2 hk
    have hT1 := toggleCollapse_eq m it hsel
    have hc1 : (m.ToggleCollapse).collapsed =
        Gitdash.mapSet m.collapsed it.RepoIndex
          (!(Gitdash.mapGetD m.collapsed it.RepoIndex false)) := by
      rw [hT1]
      exact (rebuild_data _).2.2.2.2.2.1
    rw [toggleCollapse_eq (m.ToggleCollapse) it2 hsel2]
    apply dashboard_restore
    · show (m.ToggleCollapse).repos = m.repos
      rw [hT1]; exact (rebuild_data _).1
    · show (m.ToggleCollapse).projects = m.projects
      rw [hT1]; exact (rebuild_data _).2.1
    · show (m.ToggleCollapse).activeProject = m.activeProject
      rw [hT1]; exact (rebuild_data _).2.2.1
    · show (m.ToggleCollapse).display = m.display
      rw [hT1]; exact (rebuild_data _).2.2.2.1
    · show (m.ToggleCollapse).priorityRules = m.priorityRules
      rw [hT1]; exact (rebuild_data _).2.2.2.2.1
    · intro ri
      show Gitdash.mapGetD (Gitdash.mapSet (m.ToggleCollapse).collapsed it2.RepoIndex
          (!(Gitdash.mapGetD (m.ToggleCollapse).collapsed it2.RepoIndex false))) ri false =
        Gitdash.mapGetD m.collapsed ri false
      rw [hc1, hk]
      exact mapGetD_toggle_toggle m.collapsed it.RepoIndex ri _ _ false
        (by simp [mapGetD, mapGet?_set_self, Bool.not_not])
    · intro ri
      show (Gitdash.mapGet? (m.ToggleCollapse).docsCollapsed ri).getD true =
        (Gitdash.mapGet? m.docsCollapsed ri).getD true
      rw [hT1, (rebuild_data _).2.2.2.2.2.2.1]
    · intro ri dir
      show Gitdash.mapGetD (m.ToggleCollapse).foldersCollapsed
          (Dashboard.folderKey ri dir) false =
        Gitdash.mapGetD m.foldersCollapsed (Dashboard.folderKey ri dir) false
      rw [hT1, (rebuild_data _).2.2.2.2.2.2.2]
    · exact hcons
  · -- docs collapse
    intro m it it2 hcons hsel hdoc hsel2 hdoc2 hk
    have hT1 := toggleDocs_eq m it hsel hdoc
    have hc1 : (m.ToggleDocsCollapse).docsCollapsed =
        Gitdash.mapSet m.docsCollapsed it.RepoIndex
          (!(m.isDocsCollapsed it.RepoIndex)) := by
      rw [hT1]
      exact (rebuild_data _).2.2.2.2.2.2.1
    rw [toggleDocs_eq (m.ToggleDocsCollapse) it2 hsel2 hdoc2]
    apply dashboard_restore
    · show (m.ToggleDocsCollapse).repos = m.repos
      rw [hT1]; exact (rebuild_data _).1
    · show (m.ToggleDocsCollapse).projects = m.projects
      rw [hT1]; exact (rebuild_data _).2.1
    · show (m.ToggleDocsCollapse).activeProject = m.activeProject
      rw [hT1]; exact (rebuild_data _).2.2.1
    · show (m.ToggleDocsCollapse).display = m.display
      rw [hT1]; exact (rebuild_data _).2.2.2.1
    · show (m.ToggleDocsCollapse).priorityRules = m.priorityRules
      rw [hT1]; exact (rebuild_data _).2.2.2.2.1
    · intro ri
      show Gitdash.mapGetD (m.ToggleDocsCollapse).collapsed ri false =
        Gitdash.mapGetD m.collapsed ri false
      rw [hT1, (rebuild_data _).2.2.2.2.2.1]
    · intro ri
      show (Gitdash.mapGet? (Gitdash.mapSet (m.ToggleDocsCollapse).docsCollapsed it2.RepoIndex
          (!((m.ToggleDocsCollapse).isDocsCollapsed it2.RepoIndex))) ri).getD true =
        (Gitdash.mapGet? m.docsCollapsed ri).getD true
      show Gitdash.mapGetD (Gitdash.mapSet (m.ToggleDocsCollapse).docsCollapsed it2.RepoIndex
          (!((m.ToggleDocsCollapse).isDocsCollapsed it2.RepoIndex))) ri true =
        Gitdash.mapGetD m.docsCollapsed ri true
      have hval : (m.ToggleDocsCollapse).isDocsCollapsed it2.RepoIndex =
          !(Gitdash.mapGetD m.docsCollapsed it.RepoIndex true) := by
        show (Gitdash.mapGet? (m.ToggleDocsCollapse).docsCollapsed it2.RepoIndex).getD true = _
        rw [hc1, hk]
        show Gitdash.mapGetD (Gitdash.mapSet m.docsCollapsed it.RepoIndex
          (!(m.isDocsCollapsed it.RepoIndex))) it.RepoIndex true = _
        simp [mapGetD, mapGet?_set_self]
        rfl
      rw [hc1, hval, hk]
      exact mapGetD_toggle_toggle m.docsCollapsed it.RepoIndex ri _ _ true
        (by rw [Bool.not_not])
    · intro ri dir
      show Gitdash.mapGetD (m.ToggleDocsCollapse).foldersCollapsed
          (Dashboard.folderKey ri dir) false =
        Gitdash.mapGetD m.foldersCollapsed (Dashboard.folderKey ri dir) false
      rw [hT1, (rebuild_data _).2.2.2.2.2.2.2]
    · exact hcons
  · -- folder collapse
    intro m it it2 hcons hsel hfold hsel2 hfold2 hk
    have hT1 := toggleFolder_eq m it hsel hfold
    have hc1 : (m.ToggleFolderCollapse).foldersCollapsed =
        Gitdash.mapSet m.foldersCollapsed (Dashboard.folderKey it.RepoIndex it.Dir)
          (!(Gitdash.mapGetD m.foldersCollapsed
            (Dashboard.folderKey it.RepoIndex it.Dir) false)) := by
      rw [hT1]
      exact (rebuild_data _).2.2.2.2.2.2.2
    rw [toggleFolder_eq (m.ToggleFolderCollapse) it2 hsel2 hfold2]
    apply dashboard_restore
    · show (m.ToggleFolderCollapse).repos = m.repos
      rw [hT1]; exact (rebuild_data _).1
    · show (m.ToggleFolderCollapse).projects = m.projects
      rw [hT1]; exact (rebuild_data _).2.1
    · show (m.ToggleFolderCollapse).activeProject = m.activeProject
      rw [hT1]; exact (rebuild_data _).2.2.1
    · show (m.ToggleFolderCollapse).display = m.display
      rw [hT1]; exact (rebuild_data _).2.2.2.1
    · show (m.ToggleFolderCollapse).priorityRules = m.priorityRules
      rw [hT1]; exact (rebuild_data _).2.2.2.2.1
    · intro ri
      show Gitdash.mapGetD (m.ToggleFolderCollapse).collapsed ri false =
        Gitdash.mapGetD m.collapsed ri false
      rw [hT1, (rebuild_data _).2.2.2.2.2.1]
    · intro ri
      show (Gitdash.mapGet? (m.ToggleFolderCollapse).docsCollapsed ri).getD true =
        (Gitdash.mapGet? m.docsCollapsed ri).getD true
      rw [hT1, (rebuild_data _).2.2.2.2.2.2.1]
    · intro ri dir
      show Gitdash.mapGetD (Gitdash.mapSet (m.ToggleFolderCollapse).foldersCollapsed
          (Dashboard.folderKey it2.RepoIndex it2.Dir)
          (!(Gitdash.mapGetD (m.ToggleFolderCollapse).foldersCollapsed
            (Dashboard.folderKey it2.RepoIndex it2.Dir) false)))
          (Dashboard.folderKey ri dir) false =
        Gitdash.mapGetD m.foldersCollapsed (Dashboard.folderKey ri dir) false
      rw [hc1, hk]
      exact mapGetD_toggle_toggle m.foldersCollapsed
        (Dashboard.folderKey it.RepoIndex it.Dir) (Dashboard.folderKey ri dir) _ _ false
        (by simp [mapGetD, mapGet?_set_self, Bool.not_not])
    · exact hcons
  · -- conductor section collapse
    intro cm hcons hguard hhdr hguard2 hhdr2 hkind
    have hT1 := condToggle_eq cm hguard hhdr
    have hc1 : (cm.ToggleCollapse).collapsed =
        Gitdash.mapSet cm.collapsed (itemAt cm.flatItems cm.cursor).Kind
          (!(Gitdash.mapGetD cm.collapsed (itemAt cm.flatItems cm.cursor).Kind false)) := by
      rw [hT1]
      exact (cond_rebuild_data _).2
    rw [condToggle_eq (cm.ToggleCollapse) hguard2 hhdr2]
    apply conductor_restore
    · show (cm.ToggleCollapse).data = cm.data
      rw [hT1]; exact (cond_rebuild_data _).1
    · intro k
      show Gitdash.mapGetD (Gitdash.mapSet (cm.ToggleCollapse).collapsed
          (itemAt (cm.ToggleCollapse).flatItems (cm.ToggleCollapse).cursor).Kind
          (!(Gitdash.mapGetD (cm.ToggleCollapse).collapsed
            (itemAt (cm.ToggleCollapse).flatItems (cm.ToggleCollapse).cursor).Kind
            false))) k false =
        Gitdash.mapGetD cm.collapsed k false
      rw [hc1, hkind]
      exact mapGetD_toggle_toggle cm.collapsed (itemAt cm.flatItems cm.cursor).Kind k _ _ false
        (by simp [mapGetD, mapGet?_set_self, Bool.not_not])
    · exact hcons

/-! ### Focus and fetch-guard lemmas -/

/-- `layoutSizes` only resizes the panes: focus, the visibility flags and
the recorded width — hence both visibility predicates — are untouched. -/
theorem layout_vis (a : App.State) :
    (a.layoutSizes).focusPanel = a.focusPanel ∧
    (a.layoutSizes).graphVisible = a.graphVisible ∧
    (a.layoutSizes).conductorVisible = a.conductorVisible := by
  unfold App.State.layoutSizes App.State.graphVisible App.State.conductorVisible
  split_ifs <;> exact ⟨rfl, rfl, rfl⟩

/-- A layout recompute preserves the focus-visibility invariant. -/
theorem focusInv_layout (a : App.State) (h : FocusInv a) : FocusInv a.layoutSizes := by
  obtain ⟨hf, hg, hc⟩ := layout_vis a
  constructor
  · intro hx
    rw [hg]
    exact h.1 (hf ▸ hx)
  · intro hx
    rw [hc]
    exact h.2 (hf ▸ hx)

/-- C4 (amended): the visibility *toggle keys* do preserve the
focus-visibility invariant — every `ToggleGraph`/`ToggleConductor` branch
of the key handler either forces focus back to the dashboard in the same
transition or leaves the focused panel's visibility unchanged. (The claim
as stated also covers the resize path, where it fails: `WindowSizeMsg`
only recomputes pane sizes and never resets focus — see the
counterexample.) -/
theorem C4_amended (a : App.State) (k : App.DashKey)
    (hk : k = .ToggleGraph ∨ k = .ToggleConductor)
    (hinv : FocusInv a) :
    FocusInv (a.handleDashboardKey k).1 := by
  rcases hk with rfl | rfl
  · unfold App.State.handleDashboardKey
    by_cases h1 : a.focusPanel = App.FocusPanel.FocusConductor
    · rw [if_pos h1]
      exact focusInv_layout _ ⟨fun hx => App.FocusPanel.noConfusion hx,
        fun hx => App.FocusPanel.noConfusion hx⟩
    · rw [if_neg h1]
      by_cases h2 : a.graphFocused = true ∨ a.focusPanel = App.FocusPanel.FocusGraph
      · rw [if_pos h2]
        exact focusInv_layout _ ⟨fun hx => App.FocusPanel.noConfusion hx,
          fun hx => App.FocusPanel.noConfusion hx⟩
      · rw [if_neg h2]
        by_cases h3 : a.dashboard.activeProject = -1 ∧ 0 < a.cfgProjects.length
        · rw [if_pos h3]
          exact focusInv_layout _ ⟨fun hx => App.FocusPanel.noConfusion hx,
            fun hx => App.FocusPanel.noConfusion hx⟩
        · rw [if_neg h3]
          exact focusInv_layout _ ⟨fun hx => App.FocusPanel.noConfusion hx,
            fun hx => App.FocusPanel.noConfusion hx⟩
  · unfold App.State.handleDashboardKey
    by_cases h1 : a.focusPanel = App.FocusPanel.FocusConductor
    · rw [if_pos h1]
      exact focusInv_layout _ ⟨fun hx => App.FocusPanel.noConfusion hx,
        fun hx => App.FocusPanel.noConfusion hx⟩
    · rw [if_neg h1]
      by_cases h2 : a.graphFocused = true ∨ a.focusPanel = App.FocusPanel.FocusGraph
      · rw [if_pos h2]
        exact focusInv_layout _ ⟨fun hx => hinv.1 hx, fun hx => absurd hx h1⟩
      · rw [if_neg h2]
        by_cases h3 : a.dashboard.activeProject = -1 ∧ 0 < a.cfgProjects.length
        · rw [if_pos h3]
          dsimp only
          rw [if_neg (fun hx : _ ∧ _ => h1 hx.2)]
          exact focusInv_layout _ ⟨fun hx => absurd (Or.inr hx) h2, fun hx => absurd hx h1⟩
        · rw [if_neg h3]
          dsimp only
          rw [if_neg (fun hx : _ ∧ _ => h1 hx.2)]
          exact focusInv_layout _ ⟨fun hx => absurd (Or.inr hx) h2, fun hx => absurd hx h1⟩

/-- Witness for C4 (amended): hiding the conductor from the graph-focused
app keeps focus on the still-visible graph pane. -/
theorem C4_amended_witness :
    FocusInv (Fixtures.appGraphFocused.handleDashboardKey .ToggleConductor).1 :=
  C4_amended Fixtures.appGraphFocused .ToggleConductor (Or.inr rfl)
    ⟨fun _ => by decide, fun hx => absurd hx (by decide)⟩

/-- C9: in the graph-focused branch of the key handler, a cursor-move key
(`Down`/`Up`) emits a commit-detail fetch exactly when the newly selected
hash is non-empty, differs from the hash selected before the move, and
differs from the last hash whose detail result was applied; the emitted
request carries the pane's repo path and the new hash. -/
theorem C9_fetch_guard (a : App.State) (k : App.DashKey)
    (hc : ¬(a.focusPanel = App.FocusPanel.FocusConductor))
    (hg : a.graphFocused = true ∨ a.focusPanel = App.FocusPanel.FocusGraph)
    (hk : k = .Down ∨ k = .Up) :
    ((App.graphKeyUpdate a.graphPane k).SelectedHash ≠ "" ∧
        (App.graphKeyUpdate a.graphPane k).SelectedHash ≠ a.graphPane.SelectedHash ∧
        (App.graphKeyUpdate a.graphPane k).SelectedHash ≠ a.lastDetailHash →
      (a.handleDashboardKey k).2 =
        some { repoPath := (App.graphKeyUpdate a.graphPane k).repoPath,
               hash := (App.graphKeyUpdate a.graphPane k).SelectedHash }) ∧
    (¬((App.graphKeyUpdate a.graphPane k).SelectedHash ≠ "" ∧
        (App.graphKeyUpdate a.graphPane k).SelectedHash ≠ a.graphPane.SelectedHash ∧
        (App.graphKeyUpdate a.graphPane k).SelectedHash ≠ a.lastDetailHash) →
      (a.handleDashboardKey k).2 = none) := by
  rcases hk with rfl | rfl
  all_goals
    unfold App.State.handleDashboardKey
    rw [if_neg hc, if_pos hg]
    refine ⟨fun h => ?_, fun h => ?_⟩
  · dsimp only
    rw [if_pos h]
  · dsimp only
    rw [if_neg h]
  · dsimp only
    rw [if_pos h]
  · dsimp only
    rw [if_neg h]

/-- Witness for C9 at a concrete graph-focused app: moving down from c2
selects c3, whose detail was never fetched, so the fetch for c3 at the
pane's repo path is issued. -/
theorem C9_fetch_guard_witness :
    (Fixtures.appGraphFocused.handleDashboardKey .Down).2 =
      some { repoPath := "/repo", hash := "c3" } := by
  have h := (C9_fetch_guard Fixtures.appGraphFocused .Down
      (by decide) (Or.inl rfl) (Or.inl rfl)).1 (by decide)
  rw [h]
  decide

/-- Witness for C10 (amended): a state whose collapse map is already
populated keeps it across a refresh, and a fresh first load with two
repos collapses both and shows only repo headers. -/
theorem C10_amended_witness :
    Fixtures.dashEmptyThenOne.collapsed ≠ [] ∧
    (Fixtures.dashEmptyThenOne.SetRepos (Fixtures.plainRepos 2)).collapsed =
      Fixtures.dashEmptyThenOne.collapsed ∧
    Fixtures.plainRepos 2 ≠ [] ∧
    ((Dashboard.New [] {}).SetRepos (Fixtures.plainRepos 2)).collapsed ≠ [] ∧
    (1 : Nat) < (Fixtures.plainRepos 2).length ∧
    ((Dashboard.New [] {}).SetRepos (Fixtures.plainRepos 2)).isCollapsed ((1 : Nat) : Int) = true ∧
    (((Dashboard.New [] {}).SetRepos (Fixtures.plainRepos 2)).flatItems.all
      (fun it => it.Kind == .RepoHeader)) = true := by
  refine ⟨by decide, C10_amended.1 Fixtures.dashEmptyThenOne _ (by decide),
    by decide, ?_, by decide, ?_, ?_⟩
  · exact (C10_amended.2 [] {} (Fixtures.plainRepos 2) (by decide)).1
  · exact (C10_amended.2 [] {} (Fixtures.plainRepos 2) (by decide)).2.1 1 (by decide)
  · exact (C10_amended.2 [] {} (Fixtures.plainRepos 2) (by decide)).2.2

/-- Witness for C6 (amended) at a concrete state: cursor 4 above the
window `[0, 2]` of a 4-row panel; the minimal shift moves the offset to 2. -/
theorem C6_amended_witness :
    (({ cursor := 4, scrollOffset := 0, height := 4 } :
        Dashboard.Model).ensureCursorVisible).cursor = 4 ∧
    (({ cursor := 4, scrollOffset := 0, height := 4 } :
        Dashboard.Model).ensureCursorVisible).scrollOffset = 2 ∧
    ((2 : Int) ≤ 4 ∧ (4 : Int) ≤ 2 + ({ cursor := 4, scrollOffset := 0, height := 4 } :
        Dashboard.Model).listHeight - 1) ∧
    ((({ cursor := 4, scrollOffset := 0, height := 4 } :
        Dashboard.Model).ensureCursorVisible).scrollOffset - 0).natAbs ≤ ((2 : Int) - 0).natAbs := by
  refine ⟨(C6_amended _).1, by decide, by decide, ?_⟩
  exact (C6_amended { cursor := 4, scrollOffset := 0, height := 4 }).2.2.2 2
    (by decide) (by decide)

/-- Witness for C7 (amended) at four concrete reachable states: a repo
header, the Documents header, the staged `src` folder header, and the
conductor Features header, each toggled twice. -/
theorem C7_amended_witness :
    ((Fixtures.dashEmptyThenOne.ToggleCollapse).ToggleCollapse).flatItems =
      Fixtures.dashEmptyThenOne.flatItems ∧
    ((Fixtures.dashDocsHeader.ToggleDocsCollapse).ToggleDocsCollapse).flatItems =
      Fixtures.dashDocsHeader.flatItems ∧
    ((Fixtures.dashFolderStaged.ToggleFolderCollapse).ToggleFolderCollapse).flatItems =
      Fixtures.dashFolderStaged.flatItems ∧
    ((Fixtures.condOnHeader.ToggleCollapse).ToggleCollapse).flatItems =
      Fixtures.condOnHeader.flatItems :=
  ⟨C7_amended.1 Fixtures.dashEmptyThenOne
      ((Fixtures.dashEmptyThenOne.SelectedItem).getD default)
      (((Fixtures.dashEmptyThenOne.ToggleCollapse).SelectedItem).getD default)
      (by unfold DashConsistent; decide) (by decide) (by decide) (by decide),
   C7_amended.2.1 Fixtures.dashDocsHeader
      ((Fixtures.dashDocsHeader.SelectedItem).getD default)
      (((Fixtures.dashDocsHeader.ToggleDocsCollapse).SelectedItem).getD default)
      (by unfold DashConsistent; decide) (by decide) (by decide)
      (by decide) (by decide) (by decide),
   C7_amended.2.2.1 Fixtures.dashFolderStaged
      ((Fixtures.dashFolderStaged.SelectedItem).getD default)
      (((Fixtures.dashFolderStaged.ToggleFolderCollapse).SelectedItem).getD default)
      (by unfold DashConsistent; decide) (by decide) (by decide)
      (by decide) (by decide) (by decide),
   C7_amended.2.2.2 Fixtures.condOnHeader
      (by unfold CondConsistent; decide) (by decide) (by decide)
      (by decide) (by decide) (by decide)⟩

end Gitdash
